import Mathlib

/-!
Verification of the dxgkrnl host-communication layer (drivers/hv/dxgkrnl):
a shallow embedding of the status translation, the wide-string copy helper,
the VM-bus completion matching, the async retry loop, the size ceilings,
the adapter/device lifecycle teardown, and the batch-allocation rollback,
with theorems settling the specification claims C1..C10.
-/

namespace Dxg

/-! ## Errno constants (from include/uapi/asm-generic/errno*.h) -/

def EPERM : Int := 1
def ENOENT : Int := 2
def EBADF : Int := 9
def EAGAIN : Int := 11
def ENOMEM : Int := 12
def EACCES : Int := 13
def ENODEV : Int := 19
def EEXIST : Int := 17
def EINVAL : Int := 22
def EOVERFLOW : Int := 75
def EPROTOTYPE : Int := 91
def EOPNOTSUPP : Int := 95
def EINPROGRESS : Int := 115

/-! ## NTSTATUS constants

Modelled from the spec: the header that defines the `STATUS_*` constants and
`NT_SUCCESS` is not under src/ (only `dxgvmbus.c` uses them).  Per the spec
(section 4.3) every status in the translation table is a failure status and a
success status is any non-negative value; the constants carry the standard
Windows NTSTATUS error values, interpreted as signed 32-bit integers
(hence negative). -/

def STATUS_OBJECT_NAME_COLLISION : Int := 0xC0000035 - 4294967296
def STATUS_NO_MEMORY : Int := 0xC0000017 - 4294967296
def STATUS_INVALID_PARAMETER : Int := 0xC000000D - 4294967296
def STATUS_OBJECT_NAME_INVALID : Int := 0xC0000033 - 4294967296
def STATUS_OBJECT_NAME_NOT_FOUND : Int := 0xC0000034 - 4294967296
def STATUS_TIMEOUT : Int := 0xC0000102 - 4294967296
def STATUS_BUFFER_TOO_SMALL : Int := 0xC0000023 - 4294967296
def STATUS_DEVICE_REMOVED : Int := 0xC00002B6 - 4294967296
def STATUS_ACCESS_DENIED : Int := 0xC0000022 - 4294967296
def STATUS_NOT_SUPPORTED : Int := 0xC00000BB - 4294967296
def STATUS_ILLEGAL_INSTRUCTION : Int := 0xC000001D - 4294967296
def STATUS_INVALID_HANDLE : Int := 0xC0000008 - 4294967296
def STATUS_GRAPHICS_ALLOCATION_BUSY : Int := 0xC01E0102 - 4294967296
def STATUS_OBJECT_TYPE_MISMATCH : Int := 0xC0000024 - 4294967296
def STATUS_NOT_IMPLEMENTED : Int := 0xC0000002 - 4294967296

/-- `NT_SUCCESS(status)`: the signed 32-bit status value is non-negative. -/
def NT_SUCCESS (v : Int) : Prop := 0 ≤ v

instance (v : Int) : Decidable (NT_SUCCESS v) := by
  unfold NT_SUCCESS; infer_instance

/-- Embedding of `ntstatus2int` (dxgvmbus.c:151-188): translate a host
NTSTATUS value into a local (negated errno) code.  The case order follows the
source switch statement. -/
def ntstatus2int (v : Int) : Int :=
  if 0 ≤ v then v
  else if v = STATUS_OBJECT_NAME_COLLISION then -EEXIST
  else if v = STATUS_NO_MEMORY then -ENOMEM
  else if v = STATUS_INVALID_PARAMETER then -EINVAL
  else if v = STATUS_OBJECT_NAME_INVALID then -ENOENT
  else if v = STATUS_OBJECT_NAME_NOT_FOUND then -ENOENT
  else if v = STATUS_TIMEOUT then -EAGAIN
  else if v = STATUS_BUFFER_TOO_SMALL then -EOVERFLOW
  else if v = STATUS_DEVICE_REMOVED then -ENODEV
  else if v = STATUS_ACCESS_DENIED then -EACCES
  else if v = STATUS_NOT_SUPPORTED then -EPERM
  else if v = STATUS_ILLEGAL_INSTRUCTION then -EOPNOTSUPP
  else if v = STATUS_INVALID_HANDLE then -EBADF
  else if v = STATUS_GRAPHICS_ALLOCATION_BUSY then -EINPROGRESS
  else if v = STATUS_OBJECT_TYPE_MISMATCH then -EPROTOTYPE
  else if v = STATUS_NOT_IMPLEMENTED then -EPERM
  else -EINVAL

/-! ## wcsncpy (misc.c:24-37)

The destination and source are modelled as unbounded arrays of u16 values
(functions from index to value); the loop writes `dest` cell by cell. -/

/-- One pass of the `for` loop of `wcsncpy`, starting at index `i`:
copies `src[i]` into `dest[i]`; stops after copying a NUL (returning `i + 1`)
or when `i` reaches `n`.  Returns the updated destination and the final
value of `i`. -/
def wcsncpyLoop (src : Nat → Nat) (n : Nat) (dest : Nat → Nat) (i : Nat) :
    (Nat → Nat) × Nat :=
  if h : i < n then
    let dest' := Function.update dest i (src i)
    if src i = 0 then (dest', i + 1)
    else wcsncpyLoop src n dest' (i + 1)
  else (dest, i)
termination_by n - i
decreasing_by omega

/-- Embedding of `wcsncpy` (misc.c:24-37): run the copy loop from index 0,
then store a NUL at index `i - 1`. -/
def wcsncpy (dest src : Nat → Nat) (n : Nat) : Nat → Nat :=
  let r := wcsncpyLoop src n dest 0
  Function.update r.1 (r.2 - 1) 0

/-! ## Theorems: C7 and C10 -/

/-- C7: `ntstatus2int` returns every success (non-negative) status unchanged,
maps each named failure status per the table (name-collision to
`-EEXIST`/AlreadyExists, no-memory to `-ENOMEM`/OutOfMemory,
invalid-parameter to `-EINVAL`/InvalidArgument, name-not-found and
name-invalid to `-ENOENT`/NotFound, timeout to `-EAGAIN`/WouldBlock,
buffer-too-small to `-EOVERFLOW`/Overflow, device-removed to
`-ENODEV`/NoSuchDevice, access-denied to `-EACCES`/PermissionDenied,
not-supported and not-implemented to `-EPERM`/Unsupported,
illegal-instruction to `-EOPNOTSUPP`/NotSupported, invalid-handle to
`-EBADF`/BadHandle, allocation-busy to `-EINPROGRESS`/InProgress,
type-mismatch to `-EPROTOTYPE`/TypeMismatch), and maps every other failure
status to `-EINVAL`/InvalidArgument. -/
theorem ntstatus2int_spec :
    (∀ v : Int, 0 ≤ v → ntstatus2int v = v) ∧
    ntstatus2int STATUS_OBJECT_NAME_COLLISION = -EEXIST ∧
    ntstatus2int STATUS_NO_MEMORY = -ENOMEM ∧
    ntstatus2int STATUS_INVALID_PARAMETER = -EINVAL ∧
    ntstatus2int STATUS_OBJECT_NAME_INVALID = -ENOENT ∧
    ntstatus2int STATUS_OBJECT_NAME_NOT_FOUND = -ENOENT ∧
    ntstatus2int STATUS_TIMEOUT = -EAGAIN ∧
    ntstatus2int STATUS_BUFFER_TOO_SMALL = -EOVERFLOW ∧
    ntstatus2int STATUS_DEVICE_REMOVED = -ENODEV ∧
    ntstatus2int STATUS_ACCESS_DENIED = -EACCES ∧
    ntstatus2int STATUS_NOT_SUPPORTED = -EPERM ∧
    ntstatus2int STATUS_NOT_IMPLEMENTED = -EPERM ∧
    ntstatus2int STATUS_ILLEGAL_INSTRUCTION = -EOPNOTSUPP ∧
    ntstatus2int STATUS_INVALID_HANDLE = -EBADF ∧
    ntstatus2int STATUS_GRAPHICS_ALLOCATION_BUSY = -EINPROGRESS ∧
    ntstatus2int STATUS_OBJECT_TYPE_MISMATCH = -EPROTOTYPE ∧
    (∀ v : Int, v < 0 →
      v ≠ STATUS_OBJECT_NAME_COLLISION →
      v ≠ STATUS_NO_MEMORY →
      v ≠ STATUS_INVALID_PARAMETER →
      v ≠ STATUS_OBJECT_NAME_INVALID →
      v ≠ STATUS_OBJECT_NAME_NOT_FOUND →
      v ≠ STATUS_TIMEOUT →
      v ≠ STATUS_BUFFER_TOO_SMALL →
      v ≠ STATUS_DEVICE_REMOVED →
      v ≠ STATUS_ACCESS_DENIED →
      v ≠ STATUS_NOT_SUPPORTED →
      v ≠ STATUS_NOT_IMPLEMENTED →
      v ≠ STATUS_ILLEGAL_INSTRUCTION →
      v ≠ STATUS_INVALID_HANDLE →
      v ≠ STATUS_GRAPHICS_ALLOCATION_BUSY →
      v ≠ STATUS_OBJECT_TYPE_MISMATCH →
      ntstatus2int v = -EINVAL) := by
  refine ⟨fun v hv => by simp [ntstatus2int, hv],
    by decide, by decide, by decide, by decide, by decide, by decide,
    by decide, by decide, by decide, by decide, by decide, by decide,
    by decide, by decide, by decide, ?_⟩
  intro v hvneg h1 h2 h3 h4 h5 h6 h7 h8 h9 h10 h11 h12 h13 h14 h15
  have hnot : ¬(0 ≤ v) := by omega
  simp [ntstatus2int, hnot, h1, h2, h3, h4, h5, h6, h7, h8, h9, h10, h11,
    h12, h13, h14, h15]

/-- Witness for C7: a concrete success status is returned unchanged and a
concrete unlisted failure status maps to `-EINVAL`. -/
theorem ntstatus2int_spec_witness :
    ntstatus2int 258 = 258 ∧ ntstatus2int (-7) = -EINVAL := by
  constructor
  · exact ntstatus2int_spec.1 258 (by decide)
  · exact
      ntstatus2int_spec.2.2.2.2.2.2.2.2.2.2.2.2.2.2.2.2 (-7) (by decide)
        (by decide) (by decide) (by decide) (by decide) (by decide)
        (by decide) (by decide) (by decide) (by decide) (by decide)
        (by decide) (by decide) (by decide) (by decide) (by decide)

/-- When no NUL occurs in `src[i..n)`, the loop copies `src[i..n)` and stops
with `i = n`. -/
theorem wcsncpyLoop_no_null (src : Nat → Nat) (n : Nat) :
    ∀ (m i : Nat) (dest : Nat → Nat), n - i ≤ m → i ≤ n →
      (∀ k, i ≤ k → k < n → src k ≠ 0) →
      wcsncpyLoop src n dest i =
        ((fun k => if i ≤ k ∧ k < n then src k else dest k), n) := by
  intro m
  induction m with
  | zero =>
    intro i dest hm hin _
    have hi : i = n := by omega
    subst hi
    rw [wcsncpyLoop]
    simp only [Nat.lt_irrefl, dite_false]
    refine Prod.ext ?_ rfl
    funext k
    have hk : ¬(i ≤ k ∧ k < i) := by omega
    simp [hk]
  | succ m ih =>
    intro i dest hm hin hnz
    rw [wcsncpyLoop]
    by_cases h : i < n
    · have hsrc : src i ≠ 0 := hnz i le_rfl h
      simp only [h, dif_pos, hsrc, if_neg, if_false]
      rw [ih (i + 1) (Function.update dest i (src i)) (by omega) (by omega)
        (fun k hk1 hk2 => hnz k (by omega) hk2)]
      refine Prod.ext ?_ rfl
      funext k
      rcases Nat.lt_trichotomy k i with hk | hk | hk
      · have h1 : ¬(i + 1 ≤ k ∧ k < n) := by omega
        have h2 : ¬(i ≤ k ∧ k < n) := by omega
        simp [h1, h2, Function.update_apply, Nat.ne_of_lt hk]
      · subst hk
        have h1 : ¬(k + 1 ≤ k ∧ k < n) := by omega
        have h2 : k ≤ k ∧ k < n := ⟨le_rfl, h⟩
        simp [h1, h2, Function.update_apply]
      · by_cases hkn : k < n
        · have h1 : i + 1 ≤ k ∧ k < n := by omega
          have h2 : i ≤ k ∧ k < n := by omega
          simp [h1, h2]
        · have h1 : ¬(i + 1 ≤ k ∧ k < n) := by omega
          have h2 : ¬(i ≤ k ∧ k < n) := by omega
          simp [h1, h2, Function.update_apply, Nat.ne_of_gt hk]
    · have hi : i = n := by omega
      subst hi
      simp only [Nat.lt_irrefl, dite_false]
      refine Prod.ext ?_ rfl
      funext k
      have hk : ¬(i ≤ k ∧ k < i) := by omega
      simp [hk]

/-- When the first NUL of `src` at position `≥ i` sits at `j < n`, the loop
copies `src[i..j]` (NUL included) and stops with `i = j + 1`. -/
theorem wcsncpyLoop_first_null (src : Nat → Nat) (n : Nat) :
    ∀ (m i j : Nat) (dest : Nat → Nat), j - i ≤ m → i ≤ j → j < n →
      src j = 0 → (∀ k, i ≤ k → k < j → src k ≠ 0) →
      wcsncpyLoop src n dest i =
        ((fun k => if i ≤ k ∧ k ≤ j then src k else dest k), j + 1) := by
  intro m
  induction m with
  | zero =>
    intro i j dest hm hij hjn hj hnz
    have hi : i = j := by omega
    subst hi
    rw [wcsncpyLoop]
    simp only [hjn, dif_pos, hj, if_pos]
    refine Prod.ext ?_ rfl
    funext k
    by_cases hk : k = i
    · subst hk
      simp [Function.update_apply, hj]
    · have h2 : ¬(i ≤ k ∧ k ≤ i) := by omega
      simp [Function.update_apply, hk, h2]
  | succ m ih =>
    intro i j dest hm hij hjn hj hnz
    by_cases hi : i = j
    · subst hi
      rw [wcsncpyLoop]
      simp only [hjn, dif_pos, hj, if_pos]
      refine Prod.ext ?_ rfl
      funext k
      by_cases hk : k = i
      · subst hk
        simp [Function.update_apply, hj]
      · have h2 : ¬(i ≤ k ∧ k ≤ i) := by omega
        simp [Function.update_apply, hk, h2]
    · have hilt : i < j := by omega
      have hin : i < n := by omega
      have hsrc : src i ≠ 0 := hnz i le_rfl hilt
      rw [wcsncpyLoop]
      simp only [hin, dif_pos, hsrc, if_neg, if_false]
      rw [ih (i + 1) j (Function.update dest i (src i)) (by omega) (by omega)
        hjn hj (fun k hk1 hk2 => hnz k (by omega) hk2)]
      refine Prod.ext ?_ rfl
      funext k
      rcases Nat.lt_trichotomy k i with hk | hk | hk
      · have h1 : ¬(i + 1 ≤ k ∧ k ≤ j) := by omega
        have h2 : ¬(i ≤ k ∧ k ≤ j) := by omega
        simp [h1, h2, Function.update_apply, Nat.ne_of_lt hk]
      · subst hk
        have h1 : ¬(k + 1 ≤ k ∧ k ≤ j) := by omega
        have h2 : k ≤ k ∧ k ≤ j := by omega
        simp [h1, h2, Function.update_apply]
      · by_cases hkj : k ≤ j
        · have h1 : i + 1 ≤ k ∧ k ≤ j := by omega
          have h2 : i ≤ k ∧ k ≤ j := by omega
          simp [h1, h2]
        · have h1 : ¬(i + 1 ≤ k ∧ k ≤ j) := by omega
          have h2 : ¬(i ≤ k ∧ k ≤ j) := by omega
          simp [h1, h2, Function.update_apply, Nat.ne_of_gt hk]

/-- C10: for `n ≥ 1`, `wcsncpy` leaves the destination NUL-terminated within
its first `n` elements; if the source contains a NUL among its first `n`
elements (first one at `j`), the destination equals the source up to and
including that NUL; otherwise the destination equals the first `n - 1` source
elements followed by a terminating NUL at index `n - 1`. -/
theorem wcsncpy_spec (dest src : Nat → Nat) (n : Nat) (hn : 1 ≤ n) :
    (∃ k, k < n ∧ wcsncpy dest src n k = 0) ∧
    (∀ j, j < n → src j = 0 → (∀ i, i < j → src i ≠ 0) →
      ∀ k, k ≤ j → wcsncpy dest src n k = src k) ∧
    ((∀ j, j < n → src j ≠ 0) →
      (∀ k, k < n - 1 → wcsncpy dest src n k = src k) ∧
      wcsncpy dest src n (n - 1) = 0) := by
  have hnull : ∀ j, j < n → src j = 0 → (∀ i, i < j → src i ≠ 0) →
      ∀ k, k ≤ j → wcsncpy dest src n k = src k := by
    intro j hjn hj hfirst k hk
    unfold wcsncpy
    rw [wcsncpyLoop_first_null src n j 0 j dest (by omega) (by omega) hjn hj
      (fun i _ hi => hfirst i hi)]
    simp only [Nat.add_sub_cancel]
    by_cases hkj : k = j
    · subst hkj
      simp [Function.update_apply, hj]
    · have h2 : 0 ≤ k ∧ k ≤ j := by omega
      simp [Function.update_apply, hkj, h2]
  have hnonull : (∀ j, j < n → src j ≠ 0) →
      (∀ k, k < n - 1 → wcsncpy dest src n k = src k) ∧
      wcsncpy dest src n (n - 1) = 0 := by
    intro hnz
    unfold wcsncpy
    rw [wcsncpyLoop_no_null src n n 0 dest (by omega) (by omega)
      (fun k _ hk => hnz k hk)]
    constructor
    · intro k hk
      have hkn : ¬(k = n - 1) := by omega
      have h2 : 0 ≤ k ∧ k < n := by omega
      simp [Function.update_apply, hkn, h2]
    · simp [Function.update_apply]
  refine ⟨?_, hnull, hnonull⟩
  by_cases hex : ∃ j, j < n ∧ src j = 0
  · classical
    obtain ⟨j, hjn, hj⟩ := hex
    have hexd : ∃ j, src j = 0 := ⟨j, hj⟩
    set j0 := Nat.find hexd with hj0
    have hj0z : src j0 = 0 := Nat.find_spec hexd
    have hj0min : ∀ i, i < j0 → src i ≠ 0 := fun i hi => Nat.find_min hexd hi
    have hj0n : j0 < n := by
      by_contra hge
      exact (hj0min j (by omega)) hj
    exact ⟨j0, hj0n, by rw [hnull j0 hj0n hj0z hj0min j0 le_rfl]; exact hj0z⟩
  · push_neg at hex
    obtain ⟨h1, h2⟩ := hnonull (fun j hj hz => (hex j hj) hz)
    exact ⟨n - 1, by omega, h2⟩

/-- Witness for C10: a concrete copy where the source's first NUL is at
index 2 with `n = 4` reproduces the source at index 1. -/
theorem wcsncpy_spec_witness :
    wcsncpy (fun _ => 9) (fun k => if k < 2 then k + 1 else 0) 4 1 = 2 := by
  have h := (wcsncpy_spec (fun _ => 9) (fun k => if k < 2 then k + 1 else 0) 4
      (by norm_num)).2.1 2 (by norm_num) (by norm_num)
      (by intro i hi; interval_cases i <;> norm_num) 1 (by norm_num)
  simpa using h

/-! ## Asynchronous send with bounded retry (dxgvmbus.c:398-431)

The transport (`vmbus_sendpacket`) is modelled as a function from the attempt
number to the returned status; the retry loop of `dxgvmb_send_async_msg` is
structural on the remaining retry budget (`5000 - try_count`). -/

/-- Maximum VM bus packet size (`DXG_MAX_VM_BUS_PACKET_SIZE`).
Modelled from the spec: the header defining the constant is not under src/;
the spec only requires one fixed maximum transport packet size. -/
def DXG_MAX_VM_BUS_PACKET_SIZE : Nat := 131072

/-- Bounded retry ceiling of the async send loop (dxgvmbus.c:426). -/
def ASYNC_RETRY_LIMIT : Nat := 5000

/-- The `usleep_range(1000, 2000)` bounds (microseconds) used between async
retry attempts (dxgvmbus.c:423). -/
def asyncSleepRangeUs : Nat × Nat := (1000, 2000)

/-- Outcome of the async send: the returned status, the number of
`vmbus_sendpacket` attempts made, and the number of sleeps taken. -/
structure AsyncSendOutcome where
  ret : Int
  attempts : Nat
  sleeps : Nat
deriving DecidableEq, Repr

/-- The do-while retry loop of `dxgvmb_send_async_msg` (dxgvmbus.c:415-426).
`attempt` counts the sends already made (all of which returned `-EAGAIN`);
`remaining` is `5000 - try_count`. -/
def sendAsyncLoop (f : Nat → Int) (attempt : Nat) : Nat → AsyncSendOutcome
  | 0 => ⟨-EAGAIN, attempt, attempt⟩
  | remaining + 1 =>
    if f attempt = -EAGAIN then
      if remaining = 0 then ⟨-EAGAIN, attempt + 1, attempt + 1⟩
      else sendAsyncLoop f (attempt + 1) remaining
    else ⟨f attempt, attempt + 1, attempt⟩

/-- Embedding of `dxgvmb_send_async_msg` (dxgvmbus.c:398-431): reject an
oversize command or a per-adapter channel with `-EINVAL` before any send,
then run the bounded retry loop against the transport `f`. -/
def dxgvmb_send_async_msg (cmd_size : Nat) (adapter_channel : Bool)
    (f : Nat → Int) : AsyncSendOutcome :=
  if cmd_size > DXG_MAX_VM_BUS_PACKET_SIZE then ⟨-EINVAL, 0, 0⟩
  else if adapter_channel then ⟨-EINVAL, 0, 0⟩
  else sendAsyncLoop f 0 ASYNC_RETRY_LIMIT

/-- If the transport returns `-EAGAIN` on every attempt, the loop makes
exactly `a + r` attempts in total and returns `-EAGAIN`. -/
theorem sendAsyncLoop_all_eagain (f : Nat → Int) (hf : ∀ k, f k = -EAGAIN) :
    ∀ r a, 1 ≤ r → sendAsyncLoop f a r = ⟨-EAGAIN, a + r, a + r⟩ := by
  intro r
  induction r with
  | zero => intro a h; omega
  | succ r ih =>
    intro a _
    by_cases hr : r = 0
    · subst hr
      simp [sendAsyncLoop, hf a]
    · have hstep : sendAsyncLoop f a (r + 1) = sendAsyncLoop f (a + 1) r := by
        simp [sendAsyncLoop, hf a, hr]
      rw [hstep, ih (a + 1) (by omega)]
      have harith : a + 1 + r = a + (r + 1) := by omega
      rw [harith]

/-- If the first `j` attempts return `-EAGAIN` and attempt `j` does not,
the loop stops right after attempt `j` and returns its status. -/
theorem sendAsyncLoop_first_non_eagain (f : Nat → Int) :
    ∀ r a j, a ≤ j → j < a + r → (∀ k, a ≤ k → k < j → f k = -EAGAIN) →
      f j ≠ -EAGAIN →
      sendAsyncLoop f a r = ⟨f j, j + 1, j⟩ := by
  intro r
  induction r with
  | zero => intro a j h1 h2; omega
  | succ r ih =>
    intro a j haj hjr hpre hj
    by_cases hja : j = a
    · subst hja
      simp [sendAsyncLoop, hj]
    · have hlt : a < j := by omega
      have hfa : f a = -EAGAIN := hpre a le_rfl hlt
      have hr : r ≠ 0 := by omega
      have hstep : sendAsyncLoop f a (r + 1) = sendAsyncLoop f (a + 1) r := by
        simp [sendAsyncLoop, hfa, hr]
      rw [hstep]
      exact ih (a + 1) j (by omega) (by omega)
        (fun k hk1 hk2 => hpre k (by omega) hk2) hj

/-- C8: for a command within the size ceiling sent on the global channel,
if the transport reports the transient ring-full condition (`-EAGAIN`) on
every attempt, `dxgvmb_send_async_msg` retries up to the bounded retry count
of 5000 attempts, sleeping 1-2 ms between attempts, and then returns the
transient error to the caller; and on the first non-transient result it stops
retrying and returns that result immediately. -/
theorem send_async_bounded_retry (cmd_size : Nat) (f : Nat → Int)
    (hsize : cmd_size ≤ DXG_MAX_VM_BUS_PACKET_SIZE) :
    ((∀ k, f k = -EAGAIN) →
      dxgvmb_send_async_msg cmd_size false f = ⟨-EAGAIN, 5000, 5000⟩) ∧
    (∀ j, j < 5000 → (∀ k, k < j → f k = -EAGAIN) → f j ≠ -EAGAIN →
      dxgvmb_send_async_msg cmd_size false f = ⟨f j, j + 1, j⟩) ∧
    (1000 ≤ asyncSleepRangeUs.1 ∧ asyncSleepRangeUs.2 ≤ 2000) := by
  have hno : ¬(cmd_size > DXG_MAX_VM_BUS_PACKET_SIZE) := by omega
  refine ⟨?_, ?_, by constructor <;> (unfold asyncSleepRangeUs; norm_num)⟩
  · intro hf
    unfold dxgvmb_send_async_msg
    rw [if_neg hno, if_neg (by simp)]
    exact sendAsyncLoop_all_eagain f hf ASYNC_RETRY_LIMIT 0 (by decide)
  · intro j hjlim hpre hj
    unfold dxgvmb_send_async_msg
    rw [if_neg hno, if_neg (by simp)]
    exact sendAsyncLoop_first_non_eagain f ASYNC_RETRY_LIMIT 0 j (by omega)
      (by unfold ASYNC_RETRY_LIMIT; omega)
      (fun k _ hk2 => hpre k hk2) hj

/-- Witness for C8: under a persistently ring-full transport the async send
returns `-EAGAIN` after exactly 5000 attempts, and under a transport that
fails hard on the first attempt it returns that status after one attempt. -/
theorem send_async_bounded_retry_witness :
    dxgvmb_send_async_msg 16 false (fun _ => -EAGAIN) = ⟨-EAGAIN, 5000, 5000⟩ ∧
    dxgvmb_send_async_msg 16 false (fun _ => -ENOMEM) = ⟨-ENOMEM, 1, 0⟩ := by
  constructor
  · exact (send_async_bounded_retry 16 (fun _ => -EAGAIN) (by decide)).1
      (fun k => rfl)
  · exact (send_async_bounded_retry 16 (fun _ => -ENOMEM) (by decide)).2.1
      0 (by norm_num) (fun k hk => absurd hk (by omega)) (by decide)

/-! ## VM-bus channel: pending packets and completion matching
(dxgvmbus.c:33-40, 272-306, 331-396)

A pending `dxgvmbuspacket` carries the request id, the caller's result
buffer (a byte list covering the result region and any adjacent memory),
the declared result length (`buffer_length`), the recorded status and the
completion flag.  The channel carries the `packet_request_id` counter and
the `packet_list_head` pending list. -/

structure Packet where
  request_id : Nat
  buffer : List Nat
  buffer_length : Nat
  status : Int
  completed : Bool
deriving DecidableEq, Repr

structure Channel where
  packet_request_id : Nat
  pending : List Packet
deriving DecidableEq, Repr

/-- `memcpy(dst, src, len)` on byte lists: the first `len` bytes of `dst`
are replaced by the first `len` bytes of `src`; bytes past `len` keep their
old values. -/
def memcpyBytes (dst src : List Nat) (len : Nat) : List Nat :=
  src.take len ++ dst.drop len

/-- The walk of `packet_list_head` in `process_completion_packet`
(dxgvmbus.c:281-288): return the first packet whose `request_id` equals the
transaction id (if any) together with the list with that packet removed. -/
def findRemove (tid : Nat) : List Packet → Option Packet × List Packet
  | [] => (none, [])
  | p :: ps =>
    if p.request_id = tid then (some p, ps)
    else
      let r := findRemove tid ps
      (r.1, p :: r.2)

/-- The body run on the matched packet (dxgvmbus.c:290-302): for a non-empty
expected result, a payload shorter than `buffer_length` records `-EOVERFLOW`
without copying, otherwise exactly `buffer_length` bytes of the payload are
copied; in all cases the packet's completion is signaled. -/
def completeOne (payload : List Nat) (p : Packet) : Packet :=
  if p.buffer_length ≠ 0 then
    if payload.length < p.buffer_length then
      { p with status := -EOVERFLOW, completed := true }
    else
      { p with buffer := memcpyBytes p.buffer payload p.buffer_length,
               completed := true }
  else { p with completed := true }

/-- Embedding of `process_completion_packet` (dxgvmbus.c:272-306): look up
and remove the pending packet matching the transaction id (the source walks
the list once under the lock, both locating and unlinking the node); if
found, process and signal it; a completion matching no pending request
leaves the channel unchanged (it is only logged). -/
def process_completion_packet (ch : Channel) (tid : Nat)
    (payload : List Nat) : Channel × Option Packet :=
  match (findRemove tid ch.pending).1 with
  | none => (ch, none)
  | some p =>
    ({ ch with pending := (findRemove tid ch.pending).2 },
     some (completeOne payload p))

/-- The registration step of `dxgvmb_send_sync_msg` (dxgvmbus.c:364-371):
a fresh request id is drawn from the channel's monotonically increasing
counter (`atomic64_inc_return`) and the packet is appended to the pending
list.  Returns the new channel and the new packet's id. -/
def sendSyncRegister (ch : Channel) (result_buffer : List Nat)
    (result_size : Nat) : Channel × Nat :=
  let id := ch.packet_request_id + 1
  (⟨id, ch.pending ++ [⟨id, result_buffer, result_size, 0, false⟩]⟩, id)

/-- The de-registration step on immediate send failure
(dxgvmbus.c:376-382): the packet with the given id is removed again. -/
def sendSyncDeregister (ch : Channel) (id : Nat) : Channel :=
  { ch with pending := (findRemove id ch.pending).2 }

/-- Channel states reachable from a fresh channel
(`dxgvmbuschannel_init`, dxgvmbus.c:196-197: empty pending list, counter 0)
by registering sync requests, de-registering them on send failure, and
processing completions. -/
inductive ChannelReachable : Channel → Prop
  | init : ChannelReachable ⟨0, []⟩
  | send (ch : Channel) (buf : List Nat) (len : Nat) :
      ChannelReachable ch → ChannelReachable (sendSyncRegister ch buf len).1
  | sendFail (ch : Channel) (id : Nat) :
      ChannelReachable ch → ChannelReachable (sendSyncDeregister ch id)
  | complete (ch : Channel) (tid : Nat) (payload : List Nat) :
      ChannelReachable ch →
      ChannelReachable (process_completion_packet ch tid payload).1

/-- Invariant of the pending list: ids are strictly increasing along the
list and bounded by the channel counter. -/
def ChannelInv (ch : Channel) : Prop :=
  ch.pending.Pairwise (fun p q => p.request_id < q.request_id) ∧
  ∀ p ∈ ch.pending, p.request_id ≤ ch.packet_request_id

theorem findRemove_of_not_mem (tid : Nat) :
    ∀ l : List Packet, (∀ p ∈ l, p.request_id ≠ tid) →
      findRemove tid l = (none, l) := by
  intro l
  induction l with
  | nil => intro h; rfl
  | cons p ps ih =>
    intro h
    unfold findRemove
    rw [if_neg (h p (by simp))]
    simp [ih (fun q hq => h q (by simp [hq]))]

theorem findRemove_sublist (tid : Nat) :
    ∀ l : List Packet, (findRemove tid l).2.Sublist l := by
  intro l
  induction l with
  | nil => simp [findRemove]
  | cons p ps ih =>
    unfold findRemove
    by_cases h : p.request_id = tid
    · simp [h]
    · simp only [h, if_false, if_neg h]
      exact List.Sublist.cons₂ p ih

theorem findRemove_split (tid : Nat) :
    ∀ (l : List Packet) (p : Packet), p ∈ l → p.request_id = tid →
      l.Pairwise (fun a b => a.request_id ≠ b.request_id) →
      ∃ l₁ l₂, l = l₁ ++ p :: l₂ ∧ findRemove tid l = (some p, l₁ ++ l₂) ∧
        ∀ q ∈ l₁ ++ l₂, q.request_id ≠ tid := by
  intro l
  induction l with
  | nil => intro p h; cases h
  | cons a as ih =>
    intro p hmem htid hpw
    rcases List.mem_cons.mp hmem with rfl | hmem
    · refine ⟨[], as, by simp, ?_, ?_⟩
      · unfold findRemove
        rw [if_pos htid]
        simp
      · intro q hq
        have := (List.pairwise_cons.mp hpw).1 q (by simpa using hq)
        omega
    · have hane : a.request_id ≠ tid := by
        have := (List.pairwise_cons.mp hpw).1 p hmem
        omega
      obtain ⟨l₁, l₂, heq, hfr, hrest⟩ :=
        ih p hmem htid (List.pairwise_cons.mp hpw).2
      refine ⟨a :: l₁, l₂, by simp [heq], ?_, ?_⟩
      · unfold findRemove
        rw [if_neg hane]
        simp [hfr]
      · intro q hq
        rcases List.mem_cons.mp hq with rfl | hq
        · exact hane
        · exact hrest q hq

theorem channelInv_holds (ch : Channel) (h : ChannelReachable ch) :
    ChannelInv ch := by
  induction h with
  | init => exact ⟨List.Pairwise.nil, by simp⟩
  | send ch buf len _ ih =>
    obtain ⟨hpw, hbound⟩ := ih
    constructor
    · simp only [sendSyncRegister]
      rw [List.pairwise_append]
      refine ⟨hpw, by simp, ?_⟩
      intro a ha b hb
      simp only [List.mem_singleton] at hb
      subst hb
      have := hbound a ha
      simp only []
      omega
    · intro p hp
      simp only [sendSyncRegister] at hp ⊢
      rcases List.mem_append.mp hp with hp | hp
      · have := hbound p hp; omega
      · simp at hp; subst hp; simp
  | sendFail ch id _ ih =>
    obtain ⟨hpw, hbound⟩ := ih
    have hsub := findRemove_sublist id ch.pending
    exact ⟨List.Pairwise.sublist hsub hpw,
      fun p hp => hbound p (hsub.mem hp)⟩
  | complete ch tid payload _ ih =>
    obtain ⟨hpw, hbound⟩ := ih
    cases hfr : (findRemove tid ch.pending).1 with
    | none =>
      simpa only [process_completion_packet, hfr] using
        (⟨hpw, hbound⟩ : ChannelInv ch)
    | some p =>
      have hsub := findRemove_sublist tid ch.pending
      simp only [process_completion_packet, hfr]
      exact ⟨List.Pairwise.sublist hsub hpw,
        fun q hq => hbound q (hsub.mem hq)⟩

/-- C2: on every reachable channel state, the pending request ids are
pairwise distinct (they are drawn from the per-channel monotonically
increasing counter, and registering a request yields the incremented
counter as its fresh id); delivering a completion whose transaction id
matches a pending request removes exactly that request and signals exactly
its caller, regardless of arrival order; and a completion matching no
pending request changes nothing. -/
theorem completion_matched_by_request_id (ch : Channel)
    (h : ChannelReachable ch) :
    (ch.pending.Pairwise (fun a b => a.request_id ≠ b.request_id)) ∧
    (∀ buf len, (sendSyncRegister ch buf len).2 = ch.packet_request_id + 1 ∧
      ∀ p ∈ ch.pending, p.request_id ≠ (sendSyncRegister ch buf len).2) ∧
    (∀ tid payload p, p ∈ ch.pending → p.request_id = tid →
      ∃ l₁ l₂, ch.pending = l₁ ++ p :: l₂ ∧
        process_completion_packet ch tid payload =
          ({ ch with pending := l₁ ++ l₂ }, some (completeOne payload p)) ∧
        (∀ q ∈ l₁ ++ l₂, q.request_id ≠ tid)) ∧
    (∀ tid payload, (∀ p ∈ ch.pending, p.request_id ≠ tid) →
      process_completion_packet ch tid payload = (ch, none)) := by
  obtain ⟨hlt, hbound⟩ := channelInv_holds ch h
  have hpw : ch.pending.Pairwise (fun a b => a.request_id ≠ b.request_id) :=
    hlt.imp (fun hab => by omega)
  refine ⟨hpw, ?_, ?_, ?_⟩
  · intro buf len
    refine ⟨rfl, fun p hp => ?_⟩
    have := hbound p hp
    simp only [sendSyncRegister]
    omega
  · intro tid payload p hmem htid
    obtain ⟨l₁, l₂, heq, hfr, hrest⟩ :=
      findRemove_split tid ch.pending p hmem htid hpw
    refine ⟨l₁, l₂, heq, ?_, hrest⟩
    simp only [process_completion_packet, hfr]
  · intro tid payload hno
    simp only [process_completion_packet,
      findRemove_of_not_mem tid ch.pending hno]

/-- Witness for C2: in a concrete channel with two outstanding requests
(ids 1 and 2), the completion carrying transaction id 1 is delivered to
request 1 even though request 2 was registered later, and a stray completion
(id 9) is a no-op. -/
theorem completion_matched_by_request_id_witness :
    (process_completion_packet ⟨2, [⟨1, [0], 1, 0, false⟩,
        ⟨2, [0], 1, 0, false⟩]⟩ 1 [7]).1.pending = [⟨2, [0], 1, 0, false⟩] ∧
    (process_completion_packet ⟨2, [⟨1, [0], 1, 0, false⟩,
        ⟨2, [0], 1, 0, false⟩]⟩ 9 [7]) = (⟨2, [⟨1, [0], 1, 0, false⟩,
        ⟨2, [0], 1, 0, false⟩]⟩, none) := by
  have hreach : ChannelReachable ⟨2, [⟨1, [0], 1, 0, false⟩,
      ⟨2, [0], 1, 0, false⟩]⟩ :=
    ChannelReachable.send _ [0] 1 (ChannelReachable.send _ [0] 1
      ChannelReachable.init)
  have h := completion_matched_by_request_id _ hreach
  constructor
  · obtain ⟨l₁, l₂, heq, hres, hrest⟩ := h.2.2.1 1 [7] ⟨1, [0], 1, 0, false⟩
      (by simp) rfl
    rcases l₁ with _ | ⟨x, xs⟩
    · simp only [List.nil_append, List.cons.injEq] at heq
      rw [hres]
      simp [← heq.2]
    · exfalso
      have hx : (⟨1, [0], 1, 0, false⟩ : Packet) = x := by
        simpa using (List.cons.injEq _ _ _ _ ▸ heq).1
      have hne : x.request_id ≠ 1 := hrest x (by simp)
      rw [← hx] at hne
      exact hne rfl
  · exact h.2.2.2 9 [7] (by decide)

/-! ## C3: result-size check in the completion path -/

/-- Counterexample to C3 as stated: for a pending request expecting 4 result
bytes and an arriving payload of 8 bytes (sizes differ, and the caller's
result buffer is smaller than the payload), the receive path does **not**
record an overflow error: it copies the first 4 payload bytes (truncating)
and leaves the status at 0.  The overflow status is recorded only in the
opposite case, when the payload is smaller than the expected size
(dxgvmbus.c:292-300). -/
theorem completion_overflow_direction_counterexample :
    (process_completion_packet ⟨1, [⟨1, [9, 9, 9, 9, 7, 7], 4, 0, false⟩]⟩
        1 [1, 2, 3, 4, 5, 6, 7, 8]).2 =
      some ⟨1, [1, 2, 3, 4, 7, 7], 4, 0, true⟩ ∧
    (0 : Int) ≠ -EOVERFLOW := by
  constructor
  · rfl
  · decide

/-- C3 (amended): when the receive path completes a pending request that
expects a non-empty result, it records `-EOVERFLOW` instead of copying
whenever the arriving payload is smaller than the expected result size;
when the payload is at least as large it copies exactly `buffer_length`
bytes (truncating a larger payload, with no error); in every case it never
writes any byte at or past the caller's declared result-buffer length, so
memory past the buffer is not modified. -/
theorem completion_result_copy_bounded (p : Packet) (payload : List Nat) :
    (payload.length < p.buffer_length →
      completeOne payload p =
        { p with status := -EOVERFLOW, completed := true }) ∧
    (p.buffer_length ≠ 0 → p.buffer_length ≤ payload.length →
      (completeOne payload p).buffer =
        payload.take p.buffer_length ++ p.buffer.drop p.buffer_length ∧
      (completeOne payload p).status = p.status) ∧
    ((completeOne payload p).buffer.drop p.buffer_length =
      p.buffer.drop p.buffer_length) := by
  refine ⟨?_, ?_, ?_⟩
  · intro hlt
    have hne : p.buffer_length ≠ 0 := by omega
    simp [completeOne, hne, hlt]
  · intro hne hge
    have hnlt : ¬(payload.length < p.buffer_length) := by omega
    simp [completeOne, hne, hnlt, memcpyBytes]
  · by_cases hne : p.buffer_length ≠ 0
    · by_cases hlt : payload.length < p.buffer_length
      · simp [completeOne, hne, hlt]
      · have hge : p.buffer_length ≤ payload.length := by omega
        simp only [completeOne, hne, if_true, hlt, if_false, ite_not,
          if_neg hlt]
        simp [memcpyBytes, List.drop_append_eq_append_drop,
          List.length_take, Nat.min_eq_left hge]
    · simp [completeOne, hne]

/-- Witness for C3 (amended): a 2-byte payload arriving for a request that
expects 4 bytes yields the overflow status without touching the buffer. -/
theorem completion_result_copy_bounded_witness :
    completeOne [1, 2] ⟨1, [9, 9, 9, 9], 4, 0, false⟩ =
      ⟨1, [9, 9, 9, 9], 4, -EOVERFLOW, true⟩ := by
  have h := (completion_result_copy_bounded ⟨1, [9, 9, 9, 9], 4, 0, false⟩
      [1, 2]).1 (by norm_num)
  exact h.trans (by decide)

/-! ## C9: size ceilings checked before any host contact -/

/-- The entry of `dxgvmb_send_sync_msg` (dxgvmbus.c:342-375): command and
result sizes above `DXG_MAX_VM_BUS_PACKET_SIZE` are rejected with `-EINVAL`
before the tracking packet is allocated, before anything is registered on
the channel and before any packet is sent; then packet allocation may fail
with `-ENOMEM`; otherwise the request is registered (and would then be
sent).  An `Except.error` return means the channel was left untouched and
`vmbus_sendpacket` was never reached. -/
def dxgvmb_send_sync_msg_enter (ch : Channel) (cmd_size result_size : Nat)
    (result_buffer : List Nat) (alloc_ok : Bool) :
    Except Int (Channel × Nat) :=
  if cmd_size > DXG_MAX_VM_BUS_PACKET_SIZE ∨
      result_size > DXG_MAX_VM_BUS_PACKET_SIZE then
    .error (-EINVAL)
  else if ¬alloc_ok then .error (-ENOMEM)
  else .ok (sendSyncRegister ch result_buffer result_size)

/-- Sizes entering `dxgvmb_send_create_allocation`: the global runtime data
size, the global private driver data size, and the per-allocation private
driver data sizes (`alloc_info[i].priv_drv_data_size`); the allocation count
is the length of the last list. -/
structure CreateAllocSizes where
  private_runtime_data_size : Nat
  priv_drv_data_size : Nat
  alloc_priv_sizes : List Nat
deriving DecidableEq, Repr

/-- Command header/array entry sizes of the create-allocation message.
Modelled from the spec: the header declaring the command structs is not
under src/; the spec only requires a fixed command header and a fixed
per-allocation array entry. -/
def SIZEOF_COMMAND_CREATEALLOCATION : Nat := 88

def SIZEOF_CREATEALLOCATION_ALLOCINFO : Nat := 16

/-- The per-allocation loop of `dxgvmb_send_create_allocation`
(dxgvmbus.c:1228-1240): each per-allocation private size at or above the
ceiling, or a running total reaching the ceiling, fails with `-EOVERFLOW`;
otherwise the total per-allocation private size is returned. -/
def sumAllocPrivSizes : List Nat → Nat → Except Int Nat
  | [], acc => .ok acc
  | s :: rest, acc =>
    if s ≥ DXG_MAX_VM_BUS_PACKET_SIZE then .error (-EOVERFLOW)
    else if acc + s ≥ DXG_MAX_VM_BUS_PACKET_SIZE then .error (-EOVERFLOW)
    else sumAllocPrivSizes rest (acc + s)

/-- The aggregated command size of a batch allocation create
(dxgvmbus.c:1259-1262): command header, per-allocation info array, global
runtime data, global private driver data and per-allocation private data. -/
def createAllocationCmdSize (a : CreateAllocSizes) : Nat :=
  SIZEOF_COMMAND_CREATEALLOCATION +
    a.alloc_priv_sizes.length * SIZEOF_CREATEALLOCATION_ALLOCINFO +
    a.private_runtime_data_size +
    (a.alloc_priv_sizes.sum + a.priv_drv_data_size)

/-- The size-budget gate of `dxgvmb_send_create_allocation`
(dxgvmbus.c:1211-1266), run before any host contact: an `Except.error`
return means the function fails before building or sending the command. -/
def dxgvmb_send_create_allocation_sizegate (a : CreateAllocSizes) :
    Except Int Nat :=
  if a.private_runtime_data_size ≥ DXG_MAX_VM_BUS_PACKET_SIZE ∨
      a.priv_drv_data_size ≥ DXG_MAX_VM_BUS_PACKET_SIZE then
    .error (-EOVERFLOW)
  else
    match sumAllocPrivSizes a.alloc_priv_sizes 0 with
    | .error e => .error e
    | .ok per_alloc_total =>
      let priv_total := per_alloc_total + a.priv_drv_data_size
      let cmd_size := SIZEOF_COMMAND_CREATEALLOCATION +
        a.alloc_priv_sizes.length * SIZEOF_CREATEALLOCATION_ALLOCINFO +
        a.private_runtime_data_size + priv_total
      if cmd_size > DXG_MAX_VM_BUS_PACKET_SIZE then .error (-EOVERFLOW)
      else .ok cmd_size

theorem sumAllocPrivSizes_ok :
    ∀ (l : List Nat) (acc t : Nat), sumAllocPrivSizes l acc = .ok t →
      t = acc + l.sum := by
  intro l
  induction l with
  | nil =>
    intro acc t h
    simp only [sumAllocPrivSizes] at h
    cases h
    simp
  | cons s rest ih =>
    intro acc t h
    simp only [sumAllocPrivSizes] at h
    by_cases h1 : s ≥ DXG_MAX_VM_BUS_PACKET_SIZE
    · rw [if_pos h1] at h; cases h
    · rw [if_neg h1] at h
      by_cases h2 : acc + s ≥ DXG_MAX_VM_BUS_PACKET_SIZE
      · rw [if_pos h2] at h; cases h
      · rw [if_neg h2] at h
        have := ih (acc + s) t h
        simp [this]
        omega

theorem sumAllocPrivSizes_error :
    ∀ (l : List Nat) (acc : Nat) (e : Int),
      sumAllocPrivSizes l acc = .error e → e = -EOVERFLOW := by
  intro l
  induction l with
  | nil => intro acc e h; cases h
  | cons s rest ih =>
    intro acc e h
    simp only [sumAllocPrivSizes] at h
    by_cases h1 : s ≥ DXG_MAX_VM_BUS_PACKET_SIZE
    · rw [if_pos h1] at h; cases h; rfl
    · rw [if_neg h1] at h
      by_cases h2 : acc + s ≥ DXG_MAX_VM_BUS_PACKET_SIZE
      · rw [if_pos h2] at h; cases h; rfl
      · rw [if_neg h2] at h
        exact ih (acc + s) e h

/-- C9: a synchronous send whose command size or result size exceeds the
transport packet ceiling fails with the local oversize rejection (`-EINVAL`)
before any packet is allocated, registered or sent; and a batch allocation
create whose aggregated size (command header, per-allocation array, global
and per-allocation private driver data) would exceed the ceiling fails with
`-EOVERFLOW` before any host contact. -/
theorem size_ceiling_checked_before_send (ch : Channel)
    (cmd_size result_size : Nat) (buf : List Nat) (alloc_ok : Bool)
    (a : CreateAllocSizes) :
    (cmd_size > DXG_MAX_VM_BUS_PACKET_SIZE ∨
        result_size > DXG_MAX_VM_BUS_PACKET_SIZE →
      dxgvmb_send_sync_msg_enter ch cmd_size result_size buf alloc_ok =
        .error (-EINVAL)) ∧
    (createAllocationCmdSize a > DXG_MAX_VM_BUS_PACKET_SIZE →
      dxgvmb_send_create_allocation_sizegate a = .error (-EOVERFLOW)) := by
  constructor
  · intro hover
    simp [dxgvmb_send_sync_msg_enter, hover]
  · intro hover
    unfold dxgvmb_send_create_allocation_sizegate
    by_cases h1 : a.private_runtime_data_size ≥ DXG_MAX_VM_BUS_PACKET_SIZE ∨
        a.priv_drv_data_size ≥ DXG_MAX_VM_BUS_PACKET_SIZE
    · rw [if_pos h1]
    · rw [if_neg h1]
      cases hsum : sumAllocPrivSizes a.alloc_priv_sizes 0 with
      | error e =>
        rw [sumAllocPrivSizes_error a.alloc_priv_sizes 0 e hsum]
      | ok t =>
        have ht : t = a.alloc_priv_sizes.sum := by
          simpa using sumAllocPrivSizes_ok a.alloc_priv_sizes 0 t hsum
        subst ht
        unfold createAllocationCmdSize at hover
        simp only []
        rw [if_pos (by omega)]

/-- Witness for C9: an oversize sync command is rejected with `-EINVAL`
without touching the channel, and an oversize batch allocation create is
rejected with `-EOVERFLOW` before host contact. -/
theorem size_ceiling_checked_before_send_witness :
    dxgvmb_send_sync_msg_enter ⟨0, []⟩ 200000 0 [] true =
      .error (-EINVAL) ∧
    dxgvmb_send_create_allocation_sizegate ⟨131073, 0, []⟩ =
      .error (-EOVERFLOW) := by
  constructor
  · exact (size_ceiling_checked_before_send ⟨0, []⟩ 200000 0 [] true
      ⟨131073, 0, []⟩).1 (by left; decide)
  · exact (size_ceiling_checked_before_send ⟨0, []⟩ 200000 0 [] true
      ⟨131073, 0, []⟩).2 (by decide)

/-! ## Adapter stop (dxgadapter.c:105-136)

The adapter is modelled by its `stopping_adapter` flag, its lifecycle
state, whether its transport channel is open, and the number of processes
bound to it; `dxgadapter_stop` returns the new adapter together with the
teardown steps it performed. -/

inductive AdapterState
  | CREATED
  | ACTIVE
  | STOPPED
deriving DecidableEq, Repr

inductive AdapterEvent
  | stopProcessDevices
  | rpcCloseAdapter
  | channelDestroy
deriving DecidableEq, Repr

structure Adapter where
  stopping_adapter : Bool
  adapter_state : AdapterState
  channel_open : Bool
  nprocs : Nat
deriving DecidableEq, Repr

/-- Embedding of `dxgadapter_stop` (dxgadapter.c:105-136): under the core
lock, a one-shot `stopping_adapter` flag detects re-entrancy and returns
early on the second call; otherwise every bound process's devices are
quiesced, a close-adapter RPC is sent if the exclusive lock can still be
acquired (which requires state ACTIVE, dxgadapter.c:170-178), the transport
channel is destroyed and the state becomes STOPPED. -/
def dxgadapter_stop (a : Adapter) : Adapter × List AdapterEvent :=
  if a.stopping_adapter then (a, [])
  else
    ({ a with stopping_adapter := true, adapter_state := .STOPPED,
              channel_open := false },
     List.replicate a.nprocs AdapterEvent.stopProcessDevices ++
       (if a.adapter_state = .ACTIVE then [AdapterEvent.rpcCloseAdapter]
        else []) ++
       [AdapterEvent.channelDestroy])

/-! ## Device lifecycle (dxgadapter.c:204-382, 682-724)

The device is modelled with its lifecycle state, its guest handle, its
parent link and its child lists; `dxgdevice_destroy` returns the new device
state together with the ordered list of teardown steps (events) it
performed.  Reference-count changes appear as explicit `get`/`put`
events. -/

inductive ObjState
  | CREATED
  | ACTIVE
  | DESTROYED
deriving DecidableEq, Repr

structure Ctx where
  has_device : Bool
  handle : Nat
deriving DecidableEq, Repr

structure Alloc where
  resource_owner : Bool
  alloc_handle : Nat
  handle_valid : Bool
deriving DecidableEq, Repr

structure Dev where
  object_state : ObjState
  handle : Nat
  handle_valid : Bool
  has_adapter : Bool
  contexts : List Ctx
  allocs : List Alloc
  resources : Nat
  pqueues : Nat
  syncobjs : Nat
deriving DecidableEq, Repr

inductive DevEvent
  | stopDevice
  | destroySyncobj
  | destroyAlloc
  | putDeviceRefFromAlloc
  | rpcDestroyAllocation
  | destroyResource
  | putDeviceRefFromResource
  | destroyContext
  | putDeviceRefFromContext
  | destroyPqueue
  | freeDeviceHandle
  | deviceUnlock
  | rpcDestroyDevice
  | deviceLock
  | removeFromAdapterList
  | putAdapterRef
  | putDeviceRefFinal
  | getAdapterRef
  | getDeviceRef
deriving DecidableEq, Repr

/-- Events of `dxgallocation_destroy` (dxgadapter.c:788-818) for an
allocation on the device's allocation list: stop and unlink the allocation
(a device-owned allocation releases one device reference,
dxgadapter.c:459-467), free its handle, and send a destroy-allocation RPC
when it still owns a nonzero host handle and is not resource-owned. -/
def dxgallocation_destroy_events (al : Alloc) : List DevEvent :=
  [.destroyAlloc] ++
  (if al.resource_owner then [] else [.putDeviceRefFromAlloc]) ++
  (if al.alloc_handle ≠ 0 ∧ ¬al.resource_owner then [.rpcDestroyAllocation]
   else [])

/-- Events of `dxgcontext_destroy` (dxgadapter.c:703-724): the context is
unlinked and, when it still points to its device, releases exactly one
device reference. -/
def dxgcontext_destroy_events (c : Ctx) : List DevEvent :=
  [.destroyContext] ++ (if c.has_device then [.putDeviceRefFromContext]
   else [])

/-- The `cleanup:` tail of `dxgdevice_destroy` (dxgadapter.c:371-381),
run on **every** call: when the device still points to its adapter it is
detached from the adapter's process list and one adapter reference is
released; finally one device reference is released. -/
def dxgdevice_destroy_cleanup_events (d : Dev) : List DevEvent :=
  (if d.has_adapter then [.removeFromAdapterList, .putAdapterRef]
   else []) ++ [.putDeviceRefFinal]

/-- The child-teardown part of `dxgdevice_destroy` (dxgadapter.c:281-349),
in source order: stop the device, destroy sync objects, allocations,
resources, contexts and paging queues. -/
def dxgdevice_destroy_pre_events (d : Dev) : List DevEvent :=
  [.stopDevice] ++
  List.replicate d.syncobjs .destroySyncobj ++
  (d.allocs.map dxgallocation_destroy_events).flatten ++
  (List.replicate d.resources
    [DevEvent.destroyResource, DevEvent.putDeviceRefFromResource]).flatten ++
  (d.contexts.map dxgcontext_destroy_events).flatten ++
  List.replicate d.pqueues .destroyPqueue

/-- Events of the main (ACTIVE) teardown path of `dxgdevice_destroy`
(dxgadapter.c:281-369): the child teardown, then freeing the guest handle
from the process handle table (dxgadapter.c:352-359), and — only if a host
handle existed — dropping the device lock, sending the destroy-device RPC
(if the adapter's shared lock can be taken) and re-acquiring the device
lock (dxgadapter.c:361-369). -/
def dxgdevice_destroy_main_events (d : Dev) (adapter_lock_ok : Bool) :
    List DevEvent :=
  dxgdevice_destroy_pre_events d ++
  (if d.handle_valid then [.freeDeviceHandle] else []) ++
  (if d.handle_valid ∧ d.handle ≠ 0 then
    [.deviceUnlock] ++
      (if adapter_lock_ok then [.rpcDestroyDevice] else []) ++
      [.deviceLock]
   else [])

/-- Embedding of `dxgdevice_destroy` (dxgadapter.c:268-382): a device whose
state is not ACTIVE skips the whole teardown (`goto cleanup`), but the
cleanup tail still runs; an ACTIVE device runs the ordered teardown and
then the cleanup tail.  `adapter_lock_ok` tells whether
`dxgadapter_acquire_lock_shared` succeeds around the host RPC. -/
def dxgdevice_destroy (d : Dev) (adapter_lock_ok : Bool) :
    Dev × List DevEvent :=
  if d.object_state ≠ .ACTIVE then
    (d, dxgdevice_destroy_cleanup_events d)
  else
    ({ d with object_state := .DESTROYED, handle_valid := false,
              contexts := [], allocs := [], resources := 0, pqueues := 0,
              syncobjs := 0 },
     dxgdevice_destroy_main_events d adapter_lock_ok ++
       dxgdevice_destroy_cleanup_events d)

/-- Embedding of `dxgdevice_create` (dxgadapter.c:204-233): if the device
allocation succeeds, exactly one reference is taken on the adapter
(`kref_get(&adapter->adapter_kref)`, dxgadapter.c:214); if adding the
device to the process-adapter tracker then fails, the device is released
and `none` is returned (the adapter reference is not given back on this
path). -/
def dxgdevice_create (alloc_ok add_ok : Bool) :
    Option Dev × List DevEvent :=
  if alloc_ok then
    (if add_ok then
       some ⟨.CREATED, 0, false, true, [], [], 0, 0, 0⟩
     else none,
     [.getAdapterRef])
  else (none, [])

/-- Embedding of `dxgcontext_create` (dxgadapter.c:682-698): if the context
allocation succeeds, exactly one reference is taken on the device
(`kref_get(&device->device_kref)`, dxgadapter.c:691). -/
def dxgcontext_create (alloc_ok : Bool) : Option Ctx × List DevEvent :=
  if alloc_ok then (some ⟨true, 0⟩, [.getDeviceRef]) else (none, [])

/-! ## Counting helpers for the device teardown trace -/

theorem count_flatten_zero (e : DevEvent) (ls : List (List DevEvent))
    (h : ∀ l ∈ ls, l.count e = 0) : ls.flatten.count e = 0 := by
  induction ls with
  | nil => rfl
  | cons l rest ih =>
    rw [List.flatten_cons, List.count_append, h l (by simp),
      ih (fun x hx => h x (by simp [hx]))]

theorem count_replicate_zero (e x : DevEvent) (n : Nat) (h : e ≠ x) :
    (List.replicate n x).count e = 0 := by
  induction n with
  | zero => rfl
  | succ n ih =>
    rw [List.replicate_succ, List.count_cons, ih]
    simp [Ne.symm h]

theorem alloc_events_count_free (al : Alloc) :
    (dxgallocation_destroy_events al).count .freeDeviceHandle = 0 := by
  unfold dxgallocation_destroy_events
  split_ifs <;> decide

theorem alloc_events_count_rpcdev (al : Alloc) :
    (dxgallocation_destroy_events al).count .rpcDestroyDevice = 0 := by
  unfold dxgallocation_destroy_events
  split_ifs <;> decide

theorem alloc_events_count_putadapter (al : Alloc) :
    (dxgallocation_destroy_events al).count .putAdapterRef = 0 := by
  unfold dxgallocation_destroy_events
  split_ifs <;> decide

theorem alloc_events_count_putctx (al : Alloc) :
    (dxgallocation_destroy_events al).count .putDeviceRefFromContext = 0 := by
  unfold dxgallocation_destroy_events
  split_ifs <;> decide

theorem ctx_events_count_free (c : Ctx) :
    (dxgcontext_destroy_events c).count .freeDeviceHandle = 0 := by
  unfold dxgcontext_destroy_events
  split_ifs <;> decide

theorem ctx_events_count_rpcdev (c : Ctx) :
    (dxgcontext_destroy_events c).count .rpcDestroyDevice = 0 := by
  unfold dxgcontext_destroy_events
  split_ifs <;> decide

theorem ctx_events_count_putadapter (c : Ctx) :
    (dxgcontext_destroy_events c).count .putAdapterRef = 0 := by
  unfold dxgcontext_destroy_events
  split_ifs <;> decide

theorem alloc_flatten_count_zero (e : DevEvent) (als : List Alloc)
    (h : ∀ al : Alloc, (dxgallocation_destroy_events al).count e = 0) :
    ((als.map dxgallocation_destroy_events).flatten).count e = 0 := by
  apply count_flatten_zero
  intro l hl
  obtain ⟨al, halm, rfl⟩ := List.mem_map.mp hl
  exact h al

theorem ctx_flatten_count_zero (e : DevEvent) (cs : List Ctx)
    (h : ∀ c : Ctx, (dxgcontext_destroy_events c).count e = 0) :
    ((cs.map dxgcontext_destroy_events).flatten).count e = 0 := by
  apply count_flatten_zero
  intro l hl
  obtain ⟨c, hcm, rfl⟩ := List.mem_map.mp hl
  exact h c

theorem res_flatten_count_zero (e : DevEvent) (n : Nat)
    (h : ([DevEvent.destroyResource,
      DevEvent.putDeviceRefFromResource] : List DevEvent).count e = 0) :
    ((List.replicate n [DevEvent.destroyResource,
      DevEvent.putDeviceRefFromResource]).flatten).count e = 0 := by
  apply count_flatten_zero
  intro l hl
  rw [List.eq_of_mem_replicate hl]
  exact h

/-- Counting a context-destruction device-reference release: one per context
that still points to its device. -/
theorem ctx_flatten_count_putctx (cs : List Ctx)
    (h : ∀ c ∈ cs, c.has_device = true) :
    ((cs.map dxgcontext_destroy_events).flatten).count
      .putDeviceRefFromContext = cs.length := by
  induction cs with
  | nil => rfl
  | cons c rest ih =>
    rw [List.map_cons, List.flatten_cons, List.count_append,
      ih (fun x hx => h x (by simp [hx]))]
    have hc : c.has_device = true := h c (by simp)
    have hev : dxgcontext_destroy_events c =
        [.destroyContext, .putDeviceRefFromContext] := by
      simp [dxgcontext_destroy_events, hc]
    rw [hev, List.length_cons]
    have h1 : List.count DevEvent.putDeviceRefFromContext
        [DevEvent.destroyContext, DevEvent.putDeviceRefFromContext] = 1 := by
      decide
    rw [h1]
    omega

/-- In the child-teardown part of the device destroy trace no handle-free,
no destroy-device RPC and no adapter-reference release occurs. -/
theorem pre_events_counts (d : Dev) :
    (dxgdevice_destroy_pre_events d).count .freeDeviceHandle = 0 ∧
    (dxgdevice_destroy_pre_events d).count .rpcDestroyDevice = 0 ∧
    (dxgdevice_destroy_pre_events d).count .putAdapterRef = 0 := by
  unfold dxgdevice_destroy_pre_events
  simp only [List.count_append]
  refine ⟨?_, ?_, ?_⟩
  · rw [count_replicate_zero _ _ _ (by decide),
      alloc_flatten_count_zero _ _ alloc_events_count_free,
      res_flatten_count_zero _ _ (by decide),
      ctx_flatten_count_zero _ _ ctx_events_count_free,
      count_replicate_zero _ _ _ (by decide)]
    decide
  · rw [count_replicate_zero _ _ _ (by decide),
      alloc_flatten_count_zero _ _ alloc_events_count_rpcdev,
      res_flatten_count_zero _ _ (by decide),
      ctx_flatten_count_zero _ _ ctx_events_count_rpcdev,
      count_replicate_zero _ _ _ (by decide)]
    decide
  · rw [count_replicate_zero _ _ _ (by decide),
      alloc_flatten_count_zero _ _ alloc_events_count_putadapter,
      res_flatten_count_zero _ _ (by decide),
      ctx_flatten_count_zero _ _ ctx_events_count_putadapter,
      count_replicate_zero _ _ _ (by decide)]
    decide

/-- In the child-teardown part of the device destroy trace, exactly one
context device-reference release occurs per child context. -/
theorem pre_events_count_putctx (d : Dev)
    (hctx : ∀ c ∈ d.contexts, c.has_device = true) :
    (dxgdevice_destroy_pre_events d).count .putDeviceRefFromContext =
      d.contexts.length := by
  unfold dxgdevice_destroy_pre_events
  simp only [List.count_append]
  rw [count_replicate_zero _ _ _ (by decide),
    alloc_flatten_count_zero _ _ alloc_events_count_putctx,
    res_flatten_count_zero _ _ (by decide),
    ctx_flatten_count_putctx d.contexts hctx,
    count_replicate_zero _ _ _ (by decide)]
  have h0 : List.count DevEvent.putDeviceRefFromContext
      [DevEvent.stopDevice] = 0 := by decide
  rw [h0]
  omega

/-! ## Theorems: C4, C5, C6 -/

/-- C4: during destroy of an ACTIVE device that holds a host-side handle
(`handle_valid` and a nonzero handle), the guest-local handle is freed from
the per-process handle table strictly before the destroy-device RPC, and
the device's exclusive lock is released immediately before the RPC and
re-acquired immediately after it: the trace decomposes around the block
`[freeDeviceHandle, deviceUnlock, rpcDestroyDevice, deviceLock]`, with no
other handle-free and no other destroy-device RPC anywhere in the trace. -/
theorem device_handle_freed_before_destroy_rpc (d : Dev)
    (hact : d.object_state = .ACTIVE) (hv : d.handle_valid = true)
    (hh : d.handle ≠ 0) :
    ∃ pre post,
      (dxgdevice_destroy d true).2 =
        pre ++ [.freeDeviceHandle, .deviceUnlock, .rpcDestroyDevice,
          .deviceLock] ++ post ∧
      pre.count .freeDeviceHandle = 0 ∧
      post.count .freeDeviceHandle = 0 ∧
      pre.count .rpcDestroyDevice = 0 ∧
      post.count .rpcDestroyDevice = 0 := by
  refine ⟨dxgdevice_destroy_pre_events d,
    dxgdevice_destroy_cleanup_events d, ?_, ?_, ?_, ?_, ?_⟩
  · unfold dxgdevice_destroy
    rw [if_neg (by simp [hact])]
    unfold dxgdevice_destroy_main_events
    rw [if_pos hv, if_pos ⟨hv, hh⟩, if_pos rfl]
    simp
  · exact (pre_events_counts d).1
  · unfold dxgdevice_destroy_cleanup_events
    rw [List.count_append]
    split_ifs <;> decide
  · exact (pre_events_counts d).2.1
  · unfold dxgdevice_destroy_cleanup_events
    rw [List.count_append]
    split_ifs <;> decide

/-- Witness for C4: on a concrete device with a registered nonzero handle
and no children, the destroy trace contains exactly one destroy-device
RPC (inside the handle-free/unlock/RPC/lock block). -/
theorem device_handle_freed_before_destroy_rpc_witness :
    ((dxgdevice_destroy ⟨.ACTIVE, 5, true, true, [], [], 0, 0, 0⟩
      true).2.count DevEvent.rpcDestroyDevice) = 1 := by
  obtain ⟨pre, post, heq, hf1, hf2, hr1, hr2⟩ :=
    device_handle_freed_before_destroy_rpc
      ⟨.ACTIVE, 5, true, true, [], [], 0, 0, 0⟩ rfl rfl (by decide)
  rw [heq, List.count_append, hr2, List.count_append, hr1]
  decide

/-- Counterexample to C5 as stated: calling `dxgdevice_destroy` on a device
whose state is DESTROYED (not ACTIVE) is **not** free of reference-count
changes: the `cleanup:` tail still detaches the device and releases one
reference on the adapter and one on the device (dxgadapter.c:371-380). -/
theorem reentrant_device_destroy_counterexample :
    (dxgdevice_destroy ⟨.DESTROYED, 0, false, true, [], [], 0, 0, 0⟩
      true).2.count .putAdapterRef = 1 ∧
    (dxgdevice_destroy ⟨.DESTROYED, 0, false, true, [], [], 0, 0, 0⟩
      true).2.count .putDeviceRefFinal = 1 := by
  decide

/-- C5 (amended): calling `dxgadapter_stop` a second time on the same
adapter returns early without repeating any teardown step (no device
quiesce, no close-adapter RPC, no channel destroy) and leaves the adapter
unchanged; calling `dxgdevice_destroy` on a device whose state is not
ACTIVE performs no teardown step (no stop, no child destroy, no handle
free, no host RPC) and leaves the device state unchanged — but it still
runs the cleanup tail, which releases one adapter reference (when the
device is attached) and one device reference. -/
theorem reentrant_stop_destroy_amended :
    (∀ a : Adapter,
      (dxgadapter_stop (dxgadapter_stop a).1).1 = (dxgadapter_stop a).1 ∧
      (dxgadapter_stop (dxgadapter_stop a).1).2 = []) ∧
    (∀ (d : Dev) (lock_ok : Bool), d.object_state ≠ .ACTIVE →
      (dxgdevice_destroy d lock_ok).1 = d ∧
      (dxgdevice_destroy d lock_ok).2 =
        dxgdevice_destroy_cleanup_events d) := by
  constructor
  · intro a
    by_cases h : a.stopping_adapter <;> simp [dxgadapter_stop, h]
  · intro d lock_ok h
    simp [dxgdevice_destroy, h]

/-- Witness for C5 (amended): a concrete double stop is a no-op the second
time, and a concrete destroy of a DESTROYED device runs only the cleanup
tail. -/
theorem reentrant_stop_destroy_amended_witness :
    (dxgadapter_stop (dxgadapter_stop ⟨false, .ACTIVE, true, 2⟩).1).2 =
      [] ∧
    (dxgdevice_destroy ⟨.DESTROYED, 0, false, false, [], [], 0, 0, 0⟩
        true).2 =
      dxgdevice_destroy_cleanup_events
        ⟨.DESTROYED, 0, false, false, [], [], 0, 0, 0⟩ := by
  constructor
  · exact (reentrant_stop_destroy_amended.1 ⟨false, .ACTIVE, true, 2⟩).2
  · exact (reentrant_stop_destroy_amended.2
      ⟨.DESTROYED, 0, false, false, [], [], 0, 0, 0⟩ true (by decide)).2

/-- C6: creating a device takes exactly one reference on its adapter
(dxgadapter.c:214) and creating a context takes exactly one reference on
its device (dxgadapter.c:691); destroying an attached ACTIVE device exactly
once releases exactly one reference on its adapter (dxgadapter.c:375) and
exactly one device reference per child context (dxgadapter.c:717). -/
theorem parent_reference_discipline :
    (∀ add_ok : Bool,
      (dxgdevice_create true add_ok).2.count .getAdapterRef = 1) ∧
    ((dxgcontext_create true).2.count .getDeviceRef = 1) ∧
    (∀ (d : Dev) (lock_ok : Bool), d.object_state = .ACTIVE →
      d.has_adapter = true → (∀ c ∈ d.contexts, c.has_device = true) →
      (dxgdevice_destroy d lock_ok).2.count .putAdapterRef = 1 ∧
      (dxgdevice_destroy d lock_ok).2.count .putDeviceRefFromContext =
        d.contexts.length) := by
  refine ⟨fun add_ok => by simp [dxgdevice_create], by decide, ?_⟩
  intro d lock_ok hact hadapt hctx
  unfold dxgdevice_destroy
  rw [if_neg (by simp [hact])]
  unfold dxgdevice_destroy_main_events dxgdevice_destroy_cleanup_events
  simp only [List.count_append, hadapt, if_true]
  constructor
  · rw [(pre_events_counts d).2.2]
    split_ifs <;> decide
  · rw [pre_events_count_putctx d hctx]
    split_ifs <;> (simp [List.count_append]; try omega)

/-- Witness for C6: a concrete device create takes one adapter reference,
and destroying a concrete ACTIVE device with two contexts, one allocation,
one resource, one paging queue and one sync object releases exactly one
adapter reference and exactly two context device references. -/
theorem parent_reference_discipline_witness :
    (dxgdevice_create true true).2.count .getAdapterRef = 1 ∧
    (dxgdevice_destroy ⟨.ACTIVE, 5, true, true, [⟨true, 3⟩, ⟨true, 4⟩],
        [⟨false, 2, true⟩], 1, 1, 1⟩ true).2.count .putAdapterRef = 1 ∧
    (dxgdevice_destroy ⟨.ACTIVE, 5, true, true, [⟨true, 3⟩, ⟨true, 4⟩],
        [⟨false, 2, true⟩], 1, 1, 1⟩ true).2.count
      .putDeviceRefFromContext = 2 := by
  refine ⟨parent_reference_discipline.1 true, ?_, ?_⟩
  · exact (parent_reference_discipline.2.2 ⟨.ACTIVE, 5, true, true,
      [⟨true, 3⟩, ⟨true, 4⟩], [⟨false, 2, true⟩], 1, 1, 1⟩ true rfl rfl
      (by decide)).1
  · have h := (parent_reference_discipline.2.2 ⟨.ACTIVE, 5, true, true,
      [⟨true, 3⟩, ⟨true, 4⟩], [⟨false, 2, true⟩], 1, 1, 1⟩ true rfl rfl
      (by decide)).2
    simpa using h

/-! ## Batch allocation create: handle registration and rollback
(dxgvmbus.c:990-1188)

The model covers the phase after the host create-allocation RPC succeeded:
`process_allocation_handles` registers the host-assigned handles into the
per-process handle table, and on any local failure the `cleanup:` path of
`create_local_allocations` unwinds.  The handle table is modelled by the
lists of allocation/resource handles of this batch it holds; every
destroy-allocation RPC sent to the host is logged. -/

/-- One `DXGK_VMBCOMMAND_DESTROYALLOCATION` command
(`dxgkvmb_command_destroyallocation`): target device and resource handles,
allocation count, allocation handle array, and the
`flags.assume_not_in_use` bit. -/
structure DestroyRpc where
  device : Nat
  resource : Nat
  alloc_count : Nat
  allocations : List Nat
  assume_not_in_use : Bool
deriving DecidableEq, Repr

/-- One `dxgallocation` of the batch: its host handle, whether the handle
is registered in the process handle table (`handle_valid`), and whether the
local object has been destroyed. -/
structure DxgAlloc where
  alloc_handle : Nat
  handle_valid : Bool
  destroyed : Bool
deriving DecidableEq, Repr

/-- The `dxgresource` of the batch (meaningful when
`flags.create_resource` is set). -/
structure DxgRes where
  handle : Nat
  handle_valid : Bool
  destroyed : Bool
deriving DecidableEq, Repr

/-- The batch's slice of the per-process handle table plus the log of
destroy-allocation RPCs issued to the host. -/
structure AllocTable where
  table_allocs : List Nat
  table_res : List Nat
  rpcs : List DestroyRpc
deriving DecidableEq, Repr

structure C1State where
  allocs : List DxgAlloc
  res : DxgRes
  tbl : AllocTable
deriving DecidableEq, Repr

/-- The freshly created local allocation objects handed to
`create_local_allocations` (no handles assigned yet). -/
def initAllocs (n : Nat) : List DxgAlloc := List.replicate n ⟨0, false, false⟩

/-- The `for` loop of `process_allocation_handles` (dxgvmbus.c:1014-1030):
assign each host allocation handle in turn (`oks` tells whether the i-th
`hmgrtable_assign_handle` succeeds); on the first failure the loop breaks
with `-EINVAL`, leaving later allocations untouched.  Returns the updated
allocations, the list of handles newly added to the table, and the final
`ret` (`ret0` is the value of `ret` entering the loop, from the resource
branch). -/
def assignAllocHandles (ret0 : Int) :
    List DxgAlloc → List Nat → List Bool → (List DxgAlloc × List Nat × Int)
  | [], _, _ => ([], [], ret0)
  | a :: as, h :: hs, ok :: oks =>
    if ok then
      let r := assignAllocHandles 0 as hs oks
      ({ a with alloc_handle := h, handle_valid := true } :: r.1,
       h :: r.2.1, r.2.2)
    else (a :: as, [], -EINVAL)
  | as, _, _ => (as, [], ret0)

/-- Embedding of `process_allocation_handles` (dxgvmbus.c:990-1036), run
under one exclusive handle-table lock for the whole batch: when
`create_resource` is set the resource handle is assigned first (a failure
is only logged — `ret` continues into the loop and is overwritten by each
allocation assignment); then every allocation handle is assigned, breaking
on the first failure. -/
def process_allocation_handles (createResource resAssignOk : Bool)
    (hostRes : Nat) (hostAllocs : List Nat) (allocOks : List Bool)
    (st : C1State) : C1State × Int :=
  let resStep :
      DxgRes × List Nat × Int :=
    if createResource then
      if resAssignOk then
        ({ st.res with handle := hostRes, handle_valid := true },
         [hostRes], 0)
      else (st.res, [], -EINVAL)
    else (st.res, [], 0)
  let r := assignAllocHandles resStep.2.2 st.allocs hostAllocs allocOks
  (⟨r.1, resStep.1,
    { st.tbl with table_allocs := st.tbl.table_allocs ++ r.2.1,
                  table_res := st.tbl.table_res ++ resStep.2.1 }⟩,
   r.2.2)

/-- The handle-free loop of the rollback (dxgvmbus.c:1148-1152):
`dxgallocation_free_handle` removes each registered allocation handle from
the table and clears its `handle_valid`. -/
def freeAllocHandlesRollback :
    List DxgAlloc → List Nat → (List DxgAlloc × List Nat)
  | [], tbl => ([], tbl)
  | a :: as, tbl =>
    let step : DxgAlloc × List Nat :=
      if a.handle_valid then
        ({ a with handle_valid := false }, tbl.erase a.alloc_handle)
      else (a, tbl)
    let r := freeAllocHandlesRollback as step.2
    (step.1 :: r.1, r.2)

/-- `dxgresource_free_handle` in the rollback (dxgvmbus.c:1153-1154,
dxgadapter.c:574-590): frees the resource handle from the table when it is
registered (the resource's member allocation handles are freed by the loop
above); the handle value itself is kept. -/
def freeResHandleRollback (createResource : Bool) (res : DxgRes)
    (tblr : List Nat) : DxgRes × List Nat :=
  if createResource ∧ res.handle_valid then
    ({ res with handle_valid := false }, tblr.erase res.handle)
  else (res, tblr)

/-- `dxgallocation_destroy` (dxgadapter.c:788-818) as reached from the
rollback: frees the (already freed) handle and sends a single-allocation
destroy RPC only when the allocation still carries a nonzero host handle —
the rollback zeroes `alloc_handle` first (dxgvmbus.c:1167), which is what
suppresses this RPC. -/
def dxgallocation_destroy_rollback (deviceHandle : Nat) (a : DxgAlloc)
    (rpcs : List DestroyRpc) : DxgAlloc × List DestroyRpc :=
  let a1 : DxgAlloc := { a with handle_valid := false }
  if a1.alloc_handle ≠ 0 then
    ({ a1 with destroyed := true },
     rpcs ++ [⟨deviceHandle, 0, 1, [a1.alloc_handle], false⟩])
  else ({ a1 with destroyed := true }, rpcs)

/-- The allocation-destruction loop of the rollback (dxgvmbus.c:1163-1172):
each allocation's host handle is zeroed and the local object is
destroyed. -/
def destroyAllocsRollback (deviceHandle : Nat) :
    List DxgAlloc → List DestroyRpc → (List DxgAlloc × List DestroyRpc)
  | [], rpcs => ([], rpcs)
  | a :: as, rpcs =>
    let r1 := dxgallocation_destroy_rollback deviceHandle
      { a with alloc_handle := 0 } rpcs
    let r := destroyAllocsRollback deviceHandle as r1.2
    (r1.1 :: r.1, r.2)

/-- `dxgresource_destroy` (dxgadapter.c:592-624) as reached from the
rollback (dxgvmbus.c:1173-1180): guarded by a one-shot flag; frees the
(already freed) handle, and — because `resource->handle` still carries the
host value freed only from the table — sends **another** destroy-allocation
RPC for the resource (with a zero-initialised `d3dkmt_destroyallocation2`,
so without the not-in-use flag) whenever that handle is nonzero; its member
allocation list is already empty at this point. -/
def dxgresource_destroy_rollback (deviceHandle : Nat) (res : DxgRes)
    (rpcs : List DestroyRpc) : DxgRes × List DestroyRpc :=
  if res.destroyed then (res, rpcs)
  else if res.handle ≠ 0 then
    ({ res with destroyed := true, handle := 0 },
     rpcs ++ [⟨deviceHandle, res.handle, 0, [], false⟩])
  else ({ res with destroyed := true }, rpcs)

/-- The `cleanup:` rollback of `create_local_allocations`
(dxgvmbus.c:1146-1182), in source order: free all local handles (before
the host handles), send the single preallocated batch destroy-allocation
RPC covering all host-created allocations with `assume_not_in_use` set
(dxgvmbus.c:1063-1076, 1157-1159), destroy the local allocation objects,
and destroy the resource object. -/
def create_local_allocations_rollback (deviceHandle argsResource : Nat)
    (createResource : Bool) (hostAllocs : List Nat) (st : C1State) :
    C1State :=
  let fa := freeAllocHandlesRollback st.allocs st.tbl.table_allocs
  let fr := freeResHandleRollback createResource st.res st.tbl.table_res
  let rpcs1 := st.tbl.rpcs ++
    [⟨deviceHandle, argsResource, hostAllocs.length, hostAllocs, true⟩]
  let da := destroyAllocsRollback deviceHandle fa.1 rpcs1
  let dr := if createResource then
      dxgresource_destroy_rollback deviceHandle fr.1 da.2
    else (fr.1, da.2)
  ⟨da.1, dr.1, ⟨fa.2, fr.2, dr.2⟩⟩

/-- Embedding of the local phase of `create_local_allocations`
(dxgvmbus.c:1038-1188) after the host create-allocation RPC succeeded:
`preRegFail` stands for any local failure before handle registration
(resource-handle copy-out, existing-sysmem registration, private-data or
handle copy-out, dxgvmbus.c:1078-1130); then the handles are registered;
`postRegFail` stands for the later `global_share` copy-out failure
(dxgvmbus.c:1137-1142).  Any failure triggers the rollback. -/
def create_local_allocations (deviceHandle argsResource : Nat)
    (createResource : Bool) (hostRes : Nat) (hostAllocs : List Nat)
    (resAssignOk : Bool) (allocOks : List Bool)
    (preRegFail postRegFail : Bool) (st : C1State) : C1State × Int :=
  if preRegFail then
    (create_local_allocations_rollback deviceHandle argsResource
      createResource hostAllocs st, -EINVAL)
  else
    let r := process_allocation_handles createResource resAssignOk hostRes
      hostAllocs allocOks st
    if r.2 < 0 then
      (create_local_allocations_rollback deviceHandle argsResource
        createResource hostAllocs r.1, r.2)
    else if postRegFail then
      (create_local_allocations_rollback deviceHandle argsResource
        createResource hostAllocs r.1, -EINVAL)
    else r

/-! ## C1 support lemmas -/

theorem assignAllocHandles_length (ret0 : Int) :
    ∀ (allocs : List DxgAlloc) (hs : List Nat) (oks : List Bool),
      (assignAllocHandles ret0 allocs hs oks).1.length = allocs.length := by
  intro allocs
  induction allocs generalizing ret0 with
  | nil => intro hs oks; rfl
  | cons a as ih =>
    intro hs oks
    match hs, oks with
    | [], _ => rfl
    | h :: hs, [] => rfl
    | h :: hs, ok :: oks =>
      by_cases hok : ok
      · subst hok
        simp only [assignAllocHandles, if_true, List.length_cons]
        rw [ih 0 hs oks]
      · have : ok = false := by simpa using hok
        subst this
        simp [assignAllocHandles]

/-- The handles newly added to the table by the assignment loop are exactly
the handles of the allocations it marked registered (in order), provided the
allocations enter the loop unregistered. -/
theorem assignAllocHandles_newHandles (ret0 : Int) :
    ∀ (allocs : List DxgAlloc) (hs : List Nat) (oks : List Bool),
      (∀ a ∈ allocs, a.handle_valid = false) →
      (assignAllocHandles ret0 allocs hs oks).2.1 =
        ((assignAllocHandles ret0 allocs hs oks).1.filter
          (fun a => a.handle_valid)).map (fun a => a.alloc_handle) := by
  intro allocs
  induction allocs generalizing ret0 with
  | nil => intro hs oks hinv; rfl
  | cons a as ih =>
    intro hs oks hinv
    have hfilter : (a :: as).filter (fun x => x.handle_valid) = [] := by
      rw [List.filter_eq_nil_iff]
      intro x hx
      simp [hinv x hx]
    match hs, oks with
    | [], _ =>
      simp only [assignAllocHandles, hfilter]
      rfl
    | h :: hs, [] =>
      simp only [assignAllocHandles, hfilter]
      rfl
    | h :: hs, ok :: oks =>
      by_cases hok : ok
      · subst hok
        simp only [assignAllocHandles, if_true]
        rw [List.filter_cons_of_pos (by rfl), List.map_cons]
        rw [ih 0 hs oks (fun x hx => hinv x (by simp [hx]))]
      · have : ok = false := by simpa using hok
        subst this
        simp only [assignAllocHandles, if_false, Bool.false_eq_true,
          hfilter]
        rfl

theorem freeAllocHandlesRollback_length :
    ∀ (allocs : List DxgAlloc) (tbl : List Nat),
      (freeAllocHandlesRollback allocs tbl).1.length = allocs.length := by
  intro allocs
  induction allocs with
  | nil => intro tbl; rfl
  | cons a as ih =>
    intro tbl
    simp only [freeAllocHandlesRollback, List.length_cons]
    rw [ih]

/-- Freeing in order every registered handle of the batch empties the
batch's slice of the handle table. -/
theorem freeAllocHandlesRollback_table :
    ∀ (allocs : List DxgAlloc),
      (freeAllocHandlesRollback allocs
        ((allocs.filter (fun a => a.handle_valid)).map
          (fun a => a.alloc_handle))).2 = [] := by
  intro allocs
  induction allocs with
  | nil => rfl
  | cons a as ih =>
    by_cases hv : a.handle_valid
    · rw [List.filter_cons_of_pos (by simpa using hv), List.map_cons]
      simp only [freeAllocHandlesRollback, hv, if_true]
      rw [List.erase_cons_head]
      exact ih
    · rw [List.filter_cons_of_neg (by simpa using hv)]
      simp only [freeAllocHandlesRollback, hv, if_false]
      have : a.handle_valid = false := by simpa using hv
      simp only [this, Bool.false_eq_true, if_false]
      exact ih

/-- Destroying the local allocation objects in the rollback zeroes every
allocation and sends no further RPC: the handles were zeroed first. -/
theorem destroyAllocsRollback_spec (dev : Nat) :
    ∀ (allocs : List DxgAlloc) (rpcs : List DestroyRpc),
      destroyAllocsRollback dev allocs rpcs =
        (List.replicate allocs.length ⟨0, false, true⟩, rpcs) := by
  intro allocs
  induction allocs with
  | nil => intro rpcs; rfl
  | cons a as ih =>
    intro rpcs
    simp only [destroyAllocsRollback, dxgallocation_destroy_rollback]
    rw [ih]
    simp [List.replicate_succ]

/-- Effect of the whole rollback on a state whose table holds exactly the
batch's registered handles: the table slice is emptied, all local
allocation objects are destroyed, and the RPCs issued are the single batch
destroy (covering all host allocations, not-in-use set) plus — exactly when
a resource was created and carries a nonzero host handle — one more
destroy-allocation RPC for the resource. -/
theorem freeResHandleRollback_fields (cr : Bool) (res : DxgRes)
    (t : List Nat) :
    (freeResHandleRollback cr res t).1.destroyed = res.destroyed ∧
    (freeResHandleRollback cr res t).1.handle = res.handle := by
  unfold freeResHandleRollback
  split_ifs <;> simp

theorem rollback_spec (dev ares : Nat) (cr : Bool) (hostAllocs : List Nat)
    (st : C1State)
    (htbl : st.tbl.table_allocs =
      (st.allocs.filter (fun a => a.handle_valid)).map
        (fun a => a.alloc_handle))
    (htblr : st.tbl.table_res =
      (if cr ∧ st.res.handle_valid then [st.res.handle] else []))
    (hres : st.res.destroyed = false) :
    (create_local_allocations_rollback dev ares cr hostAllocs
      st).tbl.table_allocs = [] ∧
    (create_local_allocations_rollback dev ares cr hostAllocs
      st).tbl.table_res = [] ∧
    (create_local_allocations_rollback dev ares cr hostAllocs st).allocs =
      List.replicate st.allocs.length ⟨0, false, true⟩ ∧
    (create_local_allocations_rollback dev ares cr hostAllocs
      st).tbl.rpcs = st.tbl.rpcs ++
        (⟨dev, ares, hostAllocs.length, hostAllocs, true⟩ ::
          (if cr ∧ st.res.handle ≠ 0 then
            [⟨dev, st.res.handle, 0, [], false⟩] else [])) := by
  simp only [create_local_allocations_rollback, htbl]
  refine ⟨?_, ?_, ?_, ?_⟩
  · simp [freeAllocHandlesRollback_table]
  · unfold freeResHandleRollback
    by_cases hc : cr ∧ st.res.handle_valid
    · rw [htblr, if_pos (by exact_mod_cast hc), if_pos (by simpa using hc)]
      simp [List.erase_cons_head]
    · rw [htblr, if_neg (by exact_mod_cast hc), if_neg (by simpa using hc)]
  · simp [destroyAllocsRollback_spec, freeAllocHandlesRollback_length]
  · simp only [destroyAllocsRollback_spec]
    by_cases hcr : cr = true
    · subst hcr
      simp only [if_true]
      obtain ⟨hd, hh⟩ := freeResHandleRollback_fields true st.res
        st.tbl.table_res
      unfold dxgresource_destroy_rollback
      rw [hd, hh, hres]
      simp only [Bool.false_eq_true, if_false]
      by_cases hz : st.res.handle ≠ 0
      · rw [if_pos hz, if_pos (by exact ⟨trivial, hz⟩)]
        simp
      · rw [if_neg hz, if_neg (by simpa using hz)]
    · have hcf : cr = false := by simpa using hcr
      subst hcf
      simp

theorem initAllocs_invalid (n : Nat) :
    ∀ a ∈ initAllocs n, a.handle_valid = false := by
  intro a ha
  rw [initAllocs] at ha
  rw [List.eq_of_mem_replicate ha]

/-- State invariants after the batch registration, starting from fresh
local objects and an empty batch slice of the handle table. -/
theorem process_allocation_handles_spec (cr resAssignOk : Bool)
    (hostRes : Nat) (hostAllocs : List Nat) (allocOks : List Bool)
    (n : Nat) :
    (process_allocation_handles cr resAssignOk hostRes hostAllocs allocOks
      ⟨initAllocs n, ⟨0, false, false⟩, ⟨[], [], []⟩⟩).1.tbl.table_allocs =
      ((process_allocation_handles cr resAssignOk hostRes hostAllocs
        allocOks ⟨initAllocs n, ⟨0, false, false⟩,
        ⟨[], [], []⟩⟩).1.allocs.filter (fun a => a.handle_valid)).map
          (fun a => a.alloc_handle) ∧
    (process_allocation_handles cr resAssignOk hostRes hostAllocs allocOks
      ⟨initAllocs n, ⟨0, false, false⟩, ⟨[], [], []⟩⟩).1.tbl.table_res =
      (if cr ∧ (process_allocation_handles cr resAssignOk hostRes
        hostAllocs allocOks ⟨initAllocs n, ⟨0, false, false⟩,
        ⟨[], [], []⟩⟩).1.res.handle_valid then
          [(process_allocation_handles cr resAssignOk hostRes hostAllocs
            allocOks ⟨initAllocs n, ⟨0, false, false⟩,
            ⟨[], [], []⟩⟩).1.res.handle] else []) ∧
    (process_allocation_handles cr resAssignOk hostRes hostAllocs allocOks
      ⟨initAllocs n, ⟨0, false, false⟩, ⟨[], [], []⟩⟩).1.res.destroyed =
      false ∧
    (process_allocation_handles cr resAssignOk hostRes hostAllocs allocOks
      ⟨initAllocs n, ⟨0, false, false⟩, ⟨[], [], []⟩⟩).1.tbl.rpcs = [] ∧
    (process_allocation_handles cr resAssignOk hostRes hostAllocs allocOks
      ⟨initAllocs n, ⟨0, false, false⟩, ⟨[], [], []⟩⟩).1.allocs.length =
      n ∧
    (process_allocation_handles cr resAssignOk hostRes hostAllocs allocOks
      ⟨initAllocs n, ⟨0, false, false⟩, ⟨[], [], []⟩⟩).1.res.handle =
      (if cr ∧ resAssignOk then hostRes else 0) := by
  simp only [process_allocation_handles]
  refine ⟨?_, ?_, ?_, ?_, ?_, ?_⟩
  · simp only [List.nil_append]
    exact assignAllocHandles_newHandles _ (initAllocs n) hostAllocs
      allocOks (initAllocs_invalid n)
  · by_cases hcr : cr = true
    · subst hcr
      by_cases hok : resAssignOk = true
      · subst hok
        simp
      · have : resAssignOk = false := by simpa using hok
        subst this
        simp
    · have : cr = false := by simpa using hcr
      subst this
      simp
  · by_cases hcr : cr = true
    · subst hcr
      by_cases hok : resAssignOk = true
      · subst hok; simp
      · have : resAssignOk = false := by simpa using hok
        subst this; simp
    · have : cr = false := by simpa using hcr
      subst this; simp
  · trivial
  · rw [assignAllocHandles_length]
    simp [initAllocs]
  · by_cases hcr : cr = true
    · subst hcr
      by_cases hok : resAssignOk = true
      · subst hok; simp
      · have : resAssignOk = false := by simpa using hok
        subst this; simp
    · have : cr = false := by simpa using hcr
      subst this; simp

/-- Counterexample to C1 as stated: a batch create of 3 allocations
**with a resource**, where the host RPC succeeded (resource handle 7,
allocation handles 10/11/12), the resource handle registration succeeded
and host registration of the 2nd allocation handle fails.  The rollback
issues the batch compensating destroy-allocation RPC covering all 3
allocations — but then `dxgresource_destroy` issues a **second**
destroy-allocation RPC for the resource handle (dxgadapter.c:604-609),
because the rollback cleared only the resource's table registration, not
`resource->handle` itself.  So exactly one compensating RPC is violated. -/
theorem batch_create_rollback_counterexample :
    (create_local_allocations 1 0 true 7 [10, 11, 12] true
      [true, false, true] false false
      ⟨initAllocs 3, ⟨0, false, false⟩, ⟨[], [], []⟩⟩).2 < 0 ∧
    (create_local_allocations 1 0 true 7 [10, 11, 12] true
      [true, false, true] false false
      ⟨initAllocs 3, ⟨0, false, false⟩, ⟨[], [], []⟩⟩).1.tbl.rpcs =
      [⟨1, 0, 3, [10, 11, 12], true⟩, ⟨1, 7, 0, [], false⟩] := by
  constructor
  · decide
  · decide

/-- C1 (amended): whenever the host create-allocation RPC succeeded but a
later local step fails (handle registration failing partway through the
batch, or any other local failure before or after registration), the
engine frees every allocation and resource handle already registered
(leaving zero batch handles in the process handle table), issues one
compensating destroy-allocation host RPC that covers all N host-created
allocations with the not-in-use flag set, releases the local allocation
objects — and, exactly when a resource was created whose nonzero host
handle had been registered, issues one additional destroy-allocation RPC
for that resource during resource destruction (so the batch RPC is the
only compensating RPC whenever no resource is involved). -/
theorem batch_create_rollback (dev ares hostRes : Nat) (cr : Bool)
    (hostAllocs : List Nat) (resAssignOk : Bool) (allocOks : List Bool)
    (preRegFail postRegFail : Bool)
    (hfail : (create_local_allocations dev ares cr hostRes hostAllocs
      resAssignOk allocOks preRegFail postRegFail
      ⟨initAllocs hostAllocs.length, ⟨0, false, false⟩,
        ⟨[], [], []⟩⟩).2 < 0) :
    (create_local_allocations dev ares cr hostRes hostAllocs resAssignOk
      allocOks preRegFail postRegFail ⟨initAllocs hostAllocs.length,
      ⟨0, false, false⟩, ⟨[], [], []⟩⟩).1.tbl.table_allocs = [] ∧
    (create_local_allocations dev ares cr hostRes hostAllocs resAssignOk
      allocOks preRegFail postRegFail ⟨initAllocs hostAllocs.length,
      ⟨0, false, false⟩, ⟨[], [], []⟩⟩).1.tbl.table_res = [] ∧
    (create_local_allocations dev ares cr hostRes hostAllocs resAssignOk
      allocOks preRegFail postRegFail ⟨initAllocs hostAllocs.length,
      ⟨0, false, false⟩, ⟨[], [], []⟩⟩).1.allocs =
      List.replicate hostAllocs.length ⟨0, false, true⟩ ∧
    (create_local_allocations dev ares cr hostRes hostAllocs resAssignOk
      allocOks preRegFail postRegFail ⟨initAllocs hostAllocs.length,
      ⟨0, false, false⟩, ⟨[], [], []⟩⟩).1.tbl.rpcs =
      ⟨dev, ares, hostAllocs.length, hostAllocs, true⟩ ::
        (if preRegFail = false ∧ cr ∧ resAssignOk ∧ hostRes ≠ 0 then
          [⟨dev, hostRes, 0, [], false⟩] else []) := by
  unfold create_local_allocations at hfail ⊢
  by_cases hpre : preRegFail = true
  · rw [if_pos hpre] at hfail ⊢
    have hfe : (initAllocs hostAllocs.length).filter
        (fun a => a.handle_valid) = [] := by
      rw [List.filter_eq_nil_iff]
      intro a ha
      simp [initAllocs_invalid hostAllocs.length a ha]
    have hfilter : ((⟨initAllocs hostAllocs.length, ⟨0, false, false⟩,
        ⟨[], [], []⟩⟩ : C1State)).tbl.table_allocs =
        (((⟨initAllocs hostAllocs.length, ⟨0, false, false⟩,
          ⟨[], [], []⟩⟩ : C1State)).allocs.filter
          (fun a => a.handle_valid)).map (fun a => a.alloc_handle) := by
      simp [hfe]
    obtain ⟨h1, h2, h3, h4⟩ := rollback_spec dev ares cr hostAllocs
      ⟨initAllocs hostAllocs.length, ⟨0, false, false⟩, ⟨[], [], []⟩⟩
      hfilter (by simp) rfl
    refine ⟨h1, h2, ?_, ?_⟩
    · rw [h3]
      simp [initAllocs]
    · rw [h4]
      simp [hpre]
  · have hpf : preRegFail = false := by simpa using hpre
    rw [if_neg hpre] at hfail ⊢
    obtain ⟨h1, h2, h3, h4, h5, h6⟩ := process_allocation_handles_spec cr
      resAssignOk hostRes hostAllocs allocOks hostAllocs.length
    by_cases hneg : (process_allocation_handles cr resAssignOk hostRes
        hostAllocs allocOks ⟨initAllocs hostAllocs.length,
        ⟨0, false, false⟩, ⟨[], [], []⟩⟩).2 < 0
    · rw [if_pos hneg] at hfail ⊢
      obtain ⟨g1, g2, g3, g4⟩ := rollback_spec dev ares cr hostAllocs
        (process_allocation_handles cr resAssignOk hostRes hostAllocs
          allocOks ⟨initAllocs hostAllocs.length, ⟨0, false, false⟩,
          ⟨[], [], []⟩⟩).1 h1 h2 h3
      refine ⟨g1, g2, ?_, ?_⟩
      · rw [g3, h5]
      · rw [g4, h4, h6, hpf]
        by_cases hcr : cr = true
        · subst hcr
          by_cases hok : resAssignOk = true
          · subst hok
            by_cases hz : hostRes = 0
            · subst hz; simp
            · simp [hz]
          · have : resAssignOk = false := by simpa using hok
            subst this; simp
        · have : cr = false := by simpa using hcr
          subst this; simp
    · rw [if_neg hneg] at hfail ⊢
      by_cases hpost : postRegFail = true
      · rw [if_pos hpost] at hfail ⊢
        obtain ⟨g1, g2, g3, g4⟩ := rollback_spec dev ares cr hostAllocs
          (process_allocation_handles cr resAssignOk hostRes hostAllocs
            allocOks ⟨initAllocs hostAllocs.length, ⟨0, false, false⟩,
            ⟨[], [], []⟩⟩).1 h1 h2 h3
        refine ⟨g1, g2, ?_, ?_⟩
        · rw [g3, h5]
        · rw [g4, h4, h6, hpf]
          by_cases hcr : cr = true
          · subst hcr
            by_cases hok : resAssignOk = true
            · subst hok
              by_cases hz : hostRes = 0
              · subst hz; simp
              · simp [hz]
            · have : resAssignOk = false := by simpa using hok
              subst this; simp
          · have : cr = false := by simpa using hcr
            subst this; simp
      · rw [if_neg hpost] at hfail
        exact absurd hfail hneg

/-- Witness for C1 (amended): a batch of 3 allocations without a resource
where registration of the 2nd handle fails ends with zero batch handles in
the table, all local allocations destroyed, and exactly one compensating
destroy-allocation RPC covering all 3 host allocations with the not-in-use
flag. -/
theorem batch_create_rollback_witness :
    (create_local_allocations 1 0 false 0 [10, 11, 12] false
      [true, false, true] false false
      ⟨initAllocs 3, ⟨0, false, false⟩, ⟨[], [], []⟩⟩).1.tbl.table_allocs =
      [] ∧
    (create_local_allocations 1 0 false 0 [10, 11, 12] false
      [true, false, true] false false
      ⟨initAllocs 3, ⟨0, false, false⟩, ⟨[], [], []⟩⟩).1.tbl.rpcs =
      [⟨1, 0, 3, [10, 11, 12], true⟩] := by
  have h := batch_create_rollback 1 0 0 false [10, 11, 12] false
    [true, false, true] false false (by decide)
  refine ⟨h.1, ?_⟩
  have h4 := h.2.2.2
  simpa using h4

end Dxg